import Mathlib

/-!
# tnvme: admin queue initial-state validator and PCI register bit scan

Shallow embedding of `GrpQueues/initialStateAdmin_r10b.cpp` and of the
`ReportOffendingBitPos` contract declared in `GrpPciRegisters/allPciRegs_r10b.h`.

The test code talks to the hardware only through collaborators (resource manager,
controller configuration, queue objects, command dispatch, logging).  They are
gathered in an environment `Env σ` acting on an arbitrary device state `σ`; every
call with an observable effect is recorded as an `Event`, so a run of a test
function yields an outcome (normal return or `throw exception()`), the final
device state and the ordered trace of calls.  Collaborator calls are taken to
return normally; metric and completion-entry reads do not change the device
state.
-/

namespace Tnvme

/-! ## Data model -/

/-- Object kinds handed to the resource manager (`Trackable::OBJ_ACQ`, `Trackable::OBJ_ASQ`). -/
inductive ObjType
  | OBJ_ACQ
  | OBJ_ASQ
  deriving DecidableEq

/-- Controller target states used by the test (`ST_ENABLE`, `ST_DISABLE`). -/
inductive CtrlrState
  | ST_ENABLE
  | ST_DISABLE
  deriving DecidableEq

/-- Shared handle on the admin completion queue object. -/
structure SharedACQPtr where
  obj : Nat
  deriving DecidableEq

/-- Shared handle on the admin submission queue object. -/
structure SharedASQPtr where
  obj : Nat
  deriving DecidableEq

/-- Completion queue metrics; only `head_ptr` is read by the test. -/
structure nvme_gen_cq where
  head_ptr : Nat
  deriving DecidableEq

/-- Submission queue metrics; only `tail_ptr` is read by the test. -/
structure nvme_gen_sq where
  tail_ptr : Nat
  deriving DecidableEq

/-- The named view `n` of a completion entry; only `SQHD` is read by the test. -/
structure CE_n where
  SQHD : Nat
  deriving DecidableEq

/-- Completion entry (`union CE`), seen through its named view `n`. -/
structure CE where
  n : CE_n
  deriving DecidableEq

/-- Data buffer as configured by `MemBuffer::InitAlignment(size, align, initMem, initVal)`. -/
structure MemBuffer where
  bufSize : Nat
  align : Nat
  initMem : Bool
  initVal : Nat
  deriving DecidableEq

/-- Identify command object: file descriptor, CNS flag and PRP buffer attachment. -/
structure Identify where
  fd : Int
  CNS : Bool
  prpFields : Nat
  prpBuffer : Option MemBuffer
  deriving DecidableEq

/-- Arguments of `IO::SendCmdToHdw(grpName, testName, ms, asq, acq, cmd, qualify, verbose)`. -/
structure SendCmdArgs where
  grpName : String
  testName : String
  ms : Nat
  asq : SharedASQPtr
  acq : SharedACQPtr
  cmd : Identify
  qualify : String
  verbose : Bool
  deriving DecidableEq

/-- Members of the `Test` base class used by the code. -/
structure Test where
  mFd : Int
  mGrpName : String
  mTestName : String
  deriving DecidableEq

/-- Constants used by the code whose declarations live in headers that are not part of
the two source files embedded here. -/
structure Defs where
  ACQ_GROUP_ID : String
  ASQ_GROUP_ID : String
  CSS_NVM_CMDSET : Nat
  IDEAL_DATA_SIZE : Nat
  DEFAULT_CMD_WAIT_ms : Nat
  MASK_PRP1_PAGE : Nat
  MASK_PRP2_PAGE : Nat
  deriving DecidableEq

/-- One observable collaborator call, with its arguments (and result for `SetState`). -/
inductive Event
  | AllocObj (type : ObjType) (lifetime : String)
  | ACQ_Init (acq : SharedACQPtr) (numEntries : Nat)
  | ASQ_Init (asq : SharedASQPtr) (numEntries : Nat)
  | SetCSS (css : Nat)
  | SetState (state : CtrlrState) (ok : Bool)
  | LOG_NRM (msg : String)
  | LOG_ERR (fmt : String) (arg : Nat)
  | SendCmdToHdw (args : SendCmdArgs)
  | ACQ_GetQMetrics (acq : SharedACQPtr)
  | ASQ_GetQMetrics (asq : SharedASQPtr)
  | LogCQMetrics (m : nvme_gen_cq)
  | LogSQMetrics (m : nvme_gen_sq)
  | PeekCE (acq : SharedACQPtr) (indexPtr : Int)
  | PrepLogFile (grpName : String) (className : String) (objName : String) (qualifier : String)
  | ACQ_Dump (acq : SharedACQPtr) (filename : String) (hdr : String)
  | ASQ_Dump (asq : SharedASQPtr) (filename : String) (hdr : String)
  deriving DecidableEq

/-- The external collaborators, acting on a device state `σ`. -/
structure Env (σ : Type) where
  AllocObj : ObjType → String → σ → Nat × σ
  ACQ_Init : SharedACQPtr → Nat → σ → σ
  ASQ_Init : SharedASQPtr → Nat → σ → σ
  SetCSS : Nat → σ → σ
  SetState : CtrlrState → σ → Bool × σ
  SendCmdToHdw : SendCmdArgs → σ → σ
  ACQ_GetQMetrics : SharedACQPtr → σ → nvme_gen_cq
  ASQ_GetQMetrics : SharedASQPtr → σ → nvme_gen_sq
  PeekCE : SharedACQPtr → Int → σ → CE
  PrepLogFile : String → String → String → String → String

/-! ## Execution model: state, trace and the fatal signal -/

/-- How a call ends: normal return with a value, or `throw exception()`. -/
inductive Outcome (α : Type)
  | ret (a : α)
  | exception
  deriving DecidableEq

/-- Result of running a piece of test code: outcome, device state, calls made. -/
structure Res (σ α : Type) where
  out : Outcome α
  st : σ
  tr : List Event

/-- Test code: a function of the device state. -/
def Prog (σ α : Type) : Type := σ → Res σ α

/-- Return normally, no call made. -/
def Prog.pure {σ α : Type} (a : α) : Prog σ α := fun s => ⟨Outcome.ret a, s, []⟩

/-- Sequencing: an exception in the first part skips the second. -/
def Prog.bind {σ α β : Type} (m : Prog σ α) (f : α → Prog σ β) : Prog σ β := fun s =>
  match m s with
  | ⟨Outcome.ret a, s1, t1⟩ =>
    match f a s1 with
    | ⟨o, s2, t2⟩ => ⟨o, s2, t1 ++ t2⟩
  | ⟨Outcome.exception, s1, t1⟩ => ⟨Outcome.exception, s1, t1⟩

instance (σ : Type) : Monad (Prog σ) where
  pure := Prog.pure
  bind := Prog.bind

/-- The C++ statement `throw exception();`. -/
def throwException {σ α : Type} : Prog σ α := fun s => ⟨Outcome.exception, s, []⟩

/-- A call that changes the device state and returns nothing. -/
def callUnit {σ : Type} (e : Event) (f : σ → σ) : Prog σ Unit := fun s =>
  ⟨Outcome.ret (), f s, [e]⟩

/-- A call that only reads the device state. -/
def callRead {σ α : Type} (e : Event) (f : σ → α) : Prog σ α := fun s =>
  ⟨Outcome.ret (f s), s, [e]⟩

/-! ## Collaborator calls -/

/-- Call of `gRsrcMngr->AllocObj(type, lifetime)`. -/
def AllocObj {σ : Type} (E : Env σ) (type : ObjType) (lifetime : String) : Prog σ Nat := fun s =>
  ⟨Outcome.ret (E.AllocObj type lifetime s).1, (E.AllocObj type lifetime s).2,
    [Event.AllocObj type lifetime]⟩

/-- The macro `CAST_TO_ACQ`. -/
def CAST_TO_ACQ (obj : Nat) : SharedACQPtr := ⟨obj⟩

/-- The macro `CAST_TO_ASQ`. -/
def CAST_TO_ASQ (obj : Nat) : SharedASQPtr := ⟨obj⟩

/-- Call of `acq->Init(numEntries)`. -/
def ACQ_Init {σ : Type} (E : Env σ) (acq : SharedACQPtr) (numEntries : Nat) : Prog σ Unit :=
  callUnit (Event.ACQ_Init acq numEntries) (E.ACQ_Init acq numEntries)

/-- Call of `asq->Init(numEntries)`. -/
def ASQ_Init {σ : Type} (E : Env σ) (asq : SharedASQPtr) (numEntries : Nat) : Prog σ Unit :=
  callUnit (Event.ASQ_Init asq numEntries) (E.ASQ_Init asq numEntries)

/-- Call of `gCtrlrConfig->SetCSS(css)`. -/
def SetCSS {σ : Type} (E : Env σ) (css : Nat) : Prog σ Unit :=
  callUnit (Event.SetCSS css) (E.SetCSS css)

/-- Call of `gCtrlrConfig->SetState(state)`, returning the reported success. -/
def SetState {σ : Type} (E : Env σ) (state : CtrlrState) : Prog σ Bool := fun s =>
  ⟨Outcome.ret (E.SetState state s).1, (E.SetState state s).2,
    [Event.SetState state (E.SetState state s).1]⟩

/-- Logging macro `LOG_NRM`. -/
def LOG_NRM {σ : Type} (msg : String) : Prog σ Unit :=
  callUnit (Event.LOG_NRM msg) id

/-- Logging macro `LOG_ERR` with one formatted argument. -/
def LOG_ERR {σ : Type} (fmt : String) (arg : Nat) : Prog σ Unit :=
  callUnit (Event.LOG_ERR fmt arg) id

/-- Call of `IO::SendCmdToHdw`. -/
def SendCmdToHdw {σ : Type} (E : Env σ) (args : SendCmdArgs) : Prog σ Unit :=
  callUnit (Event.SendCmdToHdw args) (E.SendCmdToHdw args)

/-- Call of `acq->GetQMetrics()`. -/
def ACQ_GetQMetrics {σ : Type} (E : Env σ) (acq : SharedACQPtr) : Prog σ nvme_gen_cq :=
  callRead (Event.ACQ_GetQMetrics acq) (E.ACQ_GetQMetrics acq)

/-- Call of `asq->GetQMetrics()`. -/
def ASQ_GetQMetrics {σ : Type} (E : Env σ) (asq : SharedASQPtr) : Prog σ nvme_gen_sq :=
  callRead (Event.ASQ_GetQMetrics asq) (E.ASQ_GetQMetrics asq)

/-- Call of `KernelAPI::LogCQMetrics`. -/
def LogCQMetrics {σ : Type} (m : nvme_gen_cq) : Prog σ Unit :=
  callUnit (Event.LogCQMetrics m) id

/-- Call of `KernelAPI::LogSQMetrics`. -/
def LogSQMetrics {σ : Type} (m : nvme_gen_sq) : Prog σ Unit :=
  callUnit (Event.LogSQMetrics m) id

/-- Call of `acq->PeekCE(indexPtr)`. -/
def PeekCE {σ : Type} (E : Env σ) (acq : SharedACQPtr) (indexPtr : Int) : Prog σ CE :=
  callRead (Event.PeekCE acq indexPtr) (E.PeekCE acq indexPtr)

/-- Call of `FileSystem::PrepLogFile(grpName, className, objName, qualifier)`, returning
the path of the dump file. -/
def PrepLogFile {σ : Type} (E : Env σ) (grpName className objName qualifier : String) :
    Prog σ String :=
  callRead (Event.PrepLogFile grpName className objName qualifier)
    (fun _ => E.PrepLogFile grpName className objName qualifier)

/-- Call of `acq->Dump(filename, hdr)`. -/
def ACQ_Dump {σ : Type} (acq : SharedACQPtr) (filename hdr : String) : Prog σ Unit :=
  callUnit (Event.ACQ_Dump acq filename hdr) id

/-- Call of `asq->Dump(filename, hdr)`. -/
def ASQ_Dump {σ : Type} (asq : SharedASQPtr) (filename hdr : String) : Prog σ Unit :=
  callUnit (Event.ASQ_Dump asq filename hdr) id

/-! ## The test code -/

/-- Embedding of `InitialStateAdmin_r10b::VerifyHeadAndTailDoorBells`. -/
def VerifyHeadAndTailDoorBells {σ : Type} (T : Test) (E : Env σ)
    (acq : SharedACQPtr) (asq : SharedASQPtr) : Prog σ Unit := do
  let acqMetrics ← ACQ_GetQMetrics E acq
  LogCQMetrics acqMetrics
  let asqMetrics ← ASQ_GetQMetrics E asq
  LogSQMetrics asqMetrics
  if asqMetrics.tail_ptr ≠ 1 then
    LOG_ERR "Expected  ASQ.tail_ptr = 0x0001 but actual ASQ.tail_ptr  = 0x%04X"
      asqMetrics.tail_ptr
    ASQ_Dump asq (← PrepLogFile E T.mGrpName T.mTestName "asq" "tail_ptr")
      "SQ Metrics Tail Pointer Inconsistent"
    throwException
  if acqMetrics.head_ptr ≠ 1 then
    LOG_ERR "Expected ACQ.head_ptr = 0x0001 but actual ACQ.head_ptr = 0x%04X"
      acqMetrics.head_ptr
    ACQ_Dump acq (← PrepLogFile E T.mGrpName T.mTestName "acq" "head_ptr")
      "CQ Metrics Head Pointer Inconsistent"
    throwException
  let ce ← PeekCE E acq ((acqMetrics.head_ptr : Int) - 1)
  if ce.n.SQHD ≠ 1 then
    LOG_ERR "Expected CE.SQHD = 0x0001 in ACQ completion entry but actual CE.SQHD  = 0x%04X"
      ce.n.SQHD
    ACQ_Dump acq (← PrepLogFile E T.mGrpName T.mTestName "acq" "CE.SQHD")
      "CE SQ Head Pointer Inconsistent"
    throwException

/-- Embedding of `InitialStateAdmin_r10b::SubmitIdentifyCmd`. -/
def SubmitIdentifyCmd {σ : Type} (T : Test) (D : Defs) (E : Env σ)
    (acq : SharedACQPtr) (asq : SharedASQPtr) : Prog σ Unit := do
  LOG_NRM "Create identify cmd and assoc some buffer memory"
  let idCmdCap : Identify := ⟨T.mFd, false, 0, none⟩
  LOG_NRM "Force identify to request ctrlr capabilities struct"
  let idCmdCap : Identify := { idCmdCap with CNS := true }
  let idMemCap : MemBuffer := ⟨D.IDEAL_DATA_SIZE, 8, true, 0⟩
  let idPrpCap : Nat := D.MASK_PRP1_PAGE ||| D.MASK_PRP2_PAGE
  let idCmdCap : Identify := { idCmdCap with prpFields := idPrpCap, prpBuffer := some idMemCap }
  LOG_NRM "Send identify cmds to hdw"
  SendCmdToHdw E ⟨T.mGrpName, T.mTestName, D.DEFAULT_CMD_WAIT_ms, asq, acq, idCmdCap,
    "InitStateAdmin", true⟩

/-- Body of the `for` loop of `ValidateInitialStateAdmin`. -/
def ValidateInitialStateAdmin.body {σ : Type} (T : Test) (D : Defs) (E : Env σ)
    (acq : SharedACQPtr) (asq : SharedASQPtr) (_i : Nat) : Prog σ Unit := do
  SetCSS E D.CSS_NVM_CMDSET
  if (← SetState E CtrlrState.ST_ENABLE) == false then
    throwException
  SubmitIdentifyCmd T D E acq asq
  VerifyHeadAndTailDoorBells T E acq asq
  if (← SetState E CtrlrState.ST_DISABLE) == false then
    throwException

/-- The loop `for (i = lo; i < lo + n; i++) body(i)`, with `n` iterations left. -/
def forLoop {σ : Type} (body : Nat → Prog σ Unit) : Nat → Nat → Prog σ Unit
  | _, 0 => Prog.pure ()
  | i, n + 1 => Prog.bind (body i) (fun _ => forLoop body (i + 1) n)

/-- Embedding of `InitialStateAdmin_r10b::ValidateInitialStateAdmin`:
`for (uint16_t i = 0; i < 2; i++) ...`. -/
def ValidateInitialStateAdmin {σ : Type} (T : Test) (D : Defs) (E : Env σ)
    (acq : SharedACQPtr) (asq : SharedASQPtr) : Prog σ Unit :=
  forLoop (ValidateInitialStateAdmin.body T D E acq asq) 0 2

/-- Embedding of `InitialStateAdmin_r10b::RunCoreTest`. -/
def RunCoreTest {σ : Type} (T : Test) (D : Defs) (E : Env σ) : Prog σ Bool := do
  let acq := CAST_TO_ACQ (← AllocObj E ObjType.OBJ_ACQ D.ACQ_GROUP_ID)
  ACQ_Init E acq 5
  let asq := CAST_TO_ASQ (← AllocObj E ObjType.OBJ_ASQ D.ASQ_GROUP_ID)
  ASQ_Init E asq 5
  ValidateInitialStateAdmin T D E acq asq
  return true

/-! ## Derived notions used to state the properties -/

/-- The command built and dispatched by `SubmitIdentifyCmd`: identify with CNS set, a
buffer of `IDEAL_DATA_SIZE` bytes aligned on `sizeof(uint64_t)`, PRP1 and PRP2 pages. -/
def identifyArgs (T : Test) (D : Defs) (acq : SharedACQPtr) (asq : SharedASQPtr) : SendCmdArgs :=
  ⟨T.mGrpName, T.mTestName, D.DEFAULT_CMD_WAIT_ms, asq, acq,
    ⟨T.mFd, true, D.MASK_PRP1_PAGE ||| D.MASK_PRP2_PAGE, some ⟨D.IDEAL_DATA_SIZE, 8, true, 0⟩⟩,
    "InitStateAdmin", true⟩

/-- Calls made by one `SubmitIdentifyCmd`. -/
def submitTrace (T : Test) (D : Defs) (acq : SharedACQPtr) (asq : SharedASQPtr) : List Event :=
  [Event.LOG_NRM "Create identify cmd and assoc some buffer memory",
   Event.LOG_NRM "Force identify to request ctrlr capabilities struct",
   Event.LOG_NRM "Send identify cmds to hdw",
   Event.SendCmdToHdw (identifyArgs T D acq asq)]

/-- Calls made by a `VerifyHeadAndTailDoorBells` that finds tail_ptr, head_ptr and SQHD at 1. -/
def passVerifyTrace (acq : SharedACQPtr) (asq : SharedASQPtr) : List Event :=
  [Event.ACQ_GetQMetrics acq, Event.LogCQMetrics ⟨1⟩,
   Event.ASQ_GetQMetrics asq, Event.LogSQMetrics ⟨1⟩,
   Event.PeekCE acq 0]

/-- Calls made by one fully successful cycle: SetCSS, enable, submit and reap one identify
command, verify, disable. -/
def passCycleTrace (T : Test) (D : Defs) (acq : SharedACQPtr) (asq : SharedASQPtr) : List Event :=
  [Event.SetCSS D.CSS_NVM_CMDSET, Event.SetState CtrlrState.ST_ENABLE true] ++
    submitTrace T D acq asq ++ passVerifyTrace acq asq ++
    [Event.SetState CtrlrState.ST_DISABLE true]

/-- Device state at which a cycle started in `s` calls `SetState(ST_ENABLE)`. -/
def enableState {σ : Type} (D : Defs) (E : Env σ) (s : σ) : σ :=
  E.SetCSS D.CSS_NVM_CMDSET s

/-- Device state at which a cycle started in `s` runs its queue verification
(after `SetCSS`, `SetState(ST_ENABLE)` and the identify command). -/
def verifyState {σ : Type} (T : Test) (D : Defs) (E : Env σ) (acq : SharedACQPtr)
    (asq : SharedASQPtr) (s : σ) : σ :=
  E.SendCmdToHdw (identifyArgs T D acq asq) (E.SetState CtrlrState.ST_ENABLE (enableState D E s)).2

/-- Device state after the `SetState(ST_DISABLE)` of a cycle started in `s`. -/
def cycleEnd {σ : Type} (T : Test) (D : Defs) (E : Env σ) (acq : SharedACQPtr)
    (asq : SharedASQPtr) (s : σ) : σ :=
  (E.SetState CtrlrState.ST_DISABLE (verifyState T D E acq asq s)).2

/-- Handle of the ACQ allocated by `RunCoreTest` started in `s`. -/
def coreAcq {σ : Type} (D : Defs) (E : Env σ) (s : σ) : SharedACQPtr :=
  CAST_TO_ACQ (E.AllocObj ObjType.OBJ_ACQ D.ACQ_GROUP_ID s).1

/-- Device state after `RunCoreTest` allocated and initialised the ACQ. -/
def coreStateAcq {σ : Type} (D : Defs) (E : Env σ) (s : σ) : σ :=
  E.ACQ_Init (coreAcq D E s) 5 (E.AllocObj ObjType.OBJ_ACQ D.ACQ_GROUP_ID s).2

/-- Handle of the ASQ allocated by `RunCoreTest` started in `s`. -/
def coreAsq {σ : Type} (D : Defs) (E : Env σ) (s : σ) : SharedASQPtr :=
  CAST_TO_ASQ (E.AllocObj ObjType.OBJ_ASQ D.ASQ_GROUP_ID (coreStateAcq D E s)).1

/-- Device state after `RunCoreTest` allocated and initialised both queues. -/
def coreStateAsq {σ : Type} (D : Defs) (E : Env σ) (s : σ) : σ :=
  E.ASQ_Init (coreAsq D E s) 5
    (E.AllocObj ObjType.OBJ_ASQ D.ASQ_GROUP_ID (coreStateAcq D E s)).2

/-- Is the event a queue dump? -/
def Event.isDump : Event → Bool
  | Event.ACQ_Dump _ _ _ => true
  | Event.ASQ_Dump _ _ _ => true
  | _ => false

/-- The queue dumps of a trace, in order. -/
def dumps (tr : List Event) : List Event := tr.filter Event.isDump

/-- File paths handed to the queue dumps of a trace, in order. -/
def dumpPaths : List Event → List String
  | [] => []
  | Event.ACQ_Dump _ f _ :: tr => f :: dumpPaths tr
  | Event.ASQ_Dump _ f _ :: tr => f :: dumpPaths tr
  | _ :: tr => dumpPaths tr

/-- Qualifier tags of the log files prepared in a trace, in order. -/
def prepTags : List Event → List String
  | [] => []
  | Event.PrepLogFile _ _ _ q :: tr => q :: prepTags tr
  | _ :: tr => prepTags tr

/-- Is the event a `PeekCE` call? -/
def Event.isPeekCE : Event → Bool
  | Event.PeekCE _ _ => true
  | _ => false

/-- Is the event a `SetState(state)` call, whatever it reported? -/
def Event.isSetState (state : CtrlrState) : Event → Bool
  | Event.SetState st _ => decide (st = state)
  | _ => false

/-- Is the event a queue initialisation or a resource-manager allocation? -/
def Event.isSetup : Event → Bool
  | Event.AllocObj _ _ => true
  | Event.ACQ_Init _ _ => true
  | Event.ASQ_Init _ _ => true
  | _ => false

/-- Is the event a controller operation or a command submission? -/
def Event.isCtrlrOrCmd : Event → Bool
  | Event.SetCSS _ => true
  | Event.SetState _ _ => true
  | Event.SendCmdToHdw _ => true
  | _ => false

/-- The three queue invariants of the spec, in the order the code examines them. -/
inductive Invariant
  | tail_ptr
  | head_ptr
  | CE_SQHD
  deriving DecidableEq

/-- Field name of an invariant, as used to tag the dump file. -/
def Invariant.fieldName : Invariant → String
  | Invariant.tail_ptr => "tail_ptr"
  | Invariant.head_ptr => "head_ptr"
  | Invariant.CE_SQHD => "CE.SQHD"

/-- Name of the queue an invariant is about, as used to name the dump file. -/
def Invariant.queueName : Invariant → String
  | Invariant.tail_ptr => "asq"
  | Invariant.head_ptr => "acq"
  | Invariant.CE_SQHD => "acq"

/-- Number of violated invariants among ASQ tail_ptr == 1, ACQ head_ptr == 1, CE.SQHD == 1. -/
def violatedCount (tail head sqhd : Nat) : Nat :=
  (if tail ≠ 1 then 1 else 0) + (if head ≠ 1 then 1 else 0) + (if sqhd ≠ 1 then 1 else 0)

/-- First violated invariant in the order tail_ptr, head_ptr, CE.SQHD, if any. -/
def firstViolated (tail head sqhd : Nat) : Option Invariant :=
  if tail ≠ 1 then some Invariant.tail_ptr
  else if head ≠ 1 then some Invariant.head_ptr
  else if sqhd ≠ 1 then some Invariant.CE_SQHD
  else none

/-! ## A simulated controller, to run the test code on concrete inputs -/

/-- State of the simulated controller and admin queue pair. -/
structure SimDev where
  sqTail : Nat
  cqHead : Nat
  sqHead : Nat
  cq : List Nat
  enables : Nat
  disables : Nat
  objs : Nat
  deriving DecidableEq

/-- Behaviour of the simulated controller: whether disabling resets the admin queue
pointers, and which enable or disable request (counted from 0), if any, fails. -/
structure SimCfg where
  resetOnDisable : Bool
  failEnableAt : Option Nat
  failDisableAt : Option Nat
  deriving DecidableEq

/-- Simulated `SetState`. -/
def simSetState (c : SimCfg) : CtrlrState → SimDev → Bool × SimDev
  | CtrlrState.ST_ENABLE, d =>
    (decide (c.failEnableAt ≠ some d.enables), { d with enables := d.enables + 1 })
  | CtrlrState.ST_DISABLE, d =>
    if c.failDisableAt = some d.disables then (false, { d with disables := d.disables + 1 })
    else if c.resetOnDisable then
      (true, { d with sqTail := 0, cqHead := 0, sqHead := 0, cq := [],
                      disables := d.disables + 1 })
    else (true, { d with disables := d.disables + 1 })

/-- Simulated submit-and-reap of one command: the host advances the tail, the controller
consumes the command and posts a completion entry carrying its new SQ head, the host
reaps it and advances the head. -/
def simSend (d : SimDev) : SimDev :=
  { d with sqTail := d.sqTail + 1, sqHead := d.sqHead + 1, cq := d.cq ++ [d.sqHead + 1],
           cqHead := d.cqHead + 1 }

/-- The simulated collaborators. -/
def simEnv (c : SimCfg) : Env SimDev where
  AllocObj := fun _ _ d => (d.objs, { d with objs := d.objs + 1 })
  ACQ_Init := fun _ _ d => { d with cqHead := 0, cq := [] }
  ASQ_Init := fun _ _ d => { d with sqTail := 0, sqHead := 0 }
  SetCSS := fun _ d => d
  SetState := simSetState c
  SendCmdToHdw := fun _ d => simSend d
  ACQ_GetQMetrics := fun _ d => ⟨d.cqHead⟩
  ASQ_GetQMetrics := fun _ d => ⟨d.sqTail⟩
  PeekCE := fun _ i d => ⟨⟨d.cq.getD i.toNat 0⟩⟩
  PrepLogFile := fun g c o q => g ++ "." ++ c ++ "." ++ o ++ "." ++ q

/-- Freshly powered simulated controller: disabled, nothing allocated. -/
def simInit : SimDev := ⟨0, 0, 0, [], 0, 0, 0⟩

/-- A controller that resets its admin queue state when disabled. -/
def cfgReset : SimCfg := ⟨true, none, none⟩

/-- A controller whose admin queue state accumulates across disable and enable. -/
def cfgAccumulate : SimCfg := ⟨false, none, none⟩

/-- A resetting controller whose first enable request fails. -/
def cfgEnableFailsFirst : SimCfg := ⟨true, some 0, none⟩

/-- A resetting controller whose second enable request fails. -/
def cfgEnableFailsSecond : SimCfg := ⟨true, some 1, none⟩

/-- A resetting controller whose first disable request fails. -/
def cfgDisableFailsFirst : SimCfg := ⟨true, none, some 0⟩

/-- Handle of the simulated admin completion queue. -/
def simAcq : SharedACQPtr := ⟨0⟩

/-- Handle of the simulated admin submission queue. -/
def simAsq : SharedASQPtr := ⟨1⟩

/-- Test identity used on the simulated controller. -/
def simTest : Test := ⟨3, "GrpQueues", "InitialStateAdmin_r10b"⟩

/-- Constant values used on the simulated controller. -/
def simDefs : Defs := ⟨"GrpACQ", "GrpASQ", 0, 4096, 2000, 1, 2⟩

/-! ## PCI register bit scan -/

/-- The C constant `INT_MAX` for a 32-bit `int`. -/
def INT_MAX : Int := 2147483647

/-- Scan of bit positions `i, i+1, ..., i+n-1`: first position where the values differ. -/
def scanBits (val expectedVal : Nat) : Nat → Nat → Option Nat
  | _, 0 => none
  | i, n + 1 =>
    if val.testBit i ≠ expectedVal.testBit i then some i
    else scanBits val expectedVal (i + 1) n

/-- Modelled from the spec: the body of `AllPciRegs_r10b::ReportOffendingBitPos`, of which
the header `allPciRegs_r10b.h` holds only the declaration and its comment.  The spec: scan bit positions from
least to most significant; return the first position at which the two values differ, or a
sentinel "no difference" value if they are equal; the header names the sentinel `INT_MAX`.
The arguments are `ULONGLONG`, so 64 positions are scanned. -/
def ReportOffendingBitPos (val expectedVal : Nat) : Int :=
  match scanBits val expectedVal 0 64 with
  | some i => (i : Int)
  | none => INT_MAX

/-! ## Closed forms of the runs -/

/-- Calls with which every `VerifyHeadAndTailDoorBells` starts. -/
def verifyReads {σ : Type} (E : Env σ) (acq : SharedACQPtr) (asq : SharedASQPtr) (s : σ) :
    List Event :=
  [Event.ACQ_GetQMetrics acq, Event.LogCQMetrics (E.ACQ_GetQMetrics acq s),
   Event.ASQ_GetQMetrics asq, Event.LogSQMetrics (E.ASQ_GetQMetrics asq s)]

/-- Closed form of one run of `VerifyHeadAndTailDoorBells` (see `verify_eq`). -/
def verifyResult {σ : Type} (T : Test) (E : Env σ) (acq : SharedACQPtr) (asq : SharedASQPtr)
    (s : σ) : Res σ Unit :=
  if (E.ASQ_GetQMetrics asq s).tail_ptr ≠ 1 then
    ⟨Outcome.exception, s, verifyReads E acq asq s ++
      [Event.LOG_ERR "Expected  ASQ.tail_ptr = 0x0001 but actual ASQ.tail_ptr  = 0x%04X"
        (E.ASQ_GetQMetrics asq s).tail_ptr,
       Event.PrepLogFile T.mGrpName T.mTestName "asq" "tail_ptr",
       Event.ASQ_Dump asq (E.PrepLogFile T.mGrpName T.mTestName "asq" "tail_ptr")
        "SQ Metrics Tail Pointer Inconsistent"]⟩
  else if (E.ACQ_GetQMetrics acq s).head_ptr ≠ 1 then
    ⟨Outcome.exception, s, verifyReads E acq asq s ++
      [Event.LOG_ERR "Expected ACQ.head_ptr = 0x0001 but actual ACQ.head_ptr = 0x%04X"
        (E.ACQ_GetQMetrics acq s).head_ptr,
       Event.PrepLogFile T.mGrpName T.mTestName "acq" "head_ptr",
       Event.ACQ_Dump acq (E.PrepLogFile T.mGrpName T.mTestName "acq" "head_ptr")
        "CQ Metrics Head Pointer Inconsistent"]⟩
  else if (E.PeekCE acq 0 s).n.SQHD ≠ 1 then
    ⟨Outcome.exception, s, verifyReads E acq asq s ++
      [Event.PeekCE acq 0,
       Event.LOG_ERR
        "Expected CE.SQHD = 0x0001 in ACQ completion entry but actual CE.SQHD  = 0x%04X"
        (E.PeekCE acq 0 s).n.SQHD,
       Event.PrepLogFile T.mGrpName T.mTestName "acq" "CE.SQHD",
       Event.ACQ_Dump acq (E.PrepLogFile T.mGrpName T.mTestName "acq" "CE.SQHD")
        "CE SQ Head Pointer Inconsistent"]⟩
  else
    ⟨Outcome.ret (), s, verifyReads E acq asq s ++ [Event.PeekCE acq 0]⟩

/-- Closed form of one loop iteration of `ValidateInitialStateAdmin` (see `body_eq`). -/
def bodyResult {σ : Type} (T : Test) (D : Defs) (E : Env σ) (acq : SharedACQPtr)
    (asq : SharedASQPtr) (s : σ) : Res σ Unit :=
  let sv := verifyState T D E acq asq s
  let v := VerifyHeadAndTailDoorBells T E acq asq sv
  let t := [Event.SetCSS D.CSS_NVM_CMDSET,
    Event.SetState CtrlrState.ST_ENABLE (E.SetState CtrlrState.ST_ENABLE (enableState D E s)).1]
  if (E.SetState CtrlrState.ST_ENABLE (enableState D E s)).1 = false then
    ⟨Outcome.exception, (E.SetState CtrlrState.ST_ENABLE (enableState D E s)).2, t⟩
  else if v.out = Outcome.exception then
    ⟨Outcome.exception, sv, t ++ submitTrace T D acq asq ++ v.tr⟩
  else
    ⟨if (E.SetState CtrlrState.ST_DISABLE sv).1 = false then Outcome.exception
      else Outcome.ret (),
     cycleEnd T D E acq asq s,
     t ++ submitTrace T D acq asq ++ v.tr ++
      [Event.SetState CtrlrState.ST_DISABLE (E.SetState CtrlrState.ST_DISABLE sv).1]⟩

/-! ## Unfolding lemmas -/

theorem verify_eq {σ : Type} (T : Test) (E : Env σ) (acq : SharedACQPtr)
    (asq : SharedASQPtr) (s : σ) :
    VerifyHeadAndTailDoorBells T E acq asq s = verifyResult T E acq asq s := by
  by_cases h1 : (E.ASQ_GetQMetrics asq s).tail_ptr = 1
  · by_cases h2 : (E.ACQ_GetQMetrics acq s).head_ptr = 1
    · by_cases h3 : (E.PeekCE acq 0 s).n.SQHD = 1 <;>
      simp [VerifyHeadAndTailDoorBells, verifyResult, verifyReads, bind, Prog.bind, pure,
        Prog.pure, throwException, callUnit, callRead, ACQ_GetQMetrics, ASQ_GetQMetrics,
        LogCQMetrics, LogSQMetrics, LOG_ERR, ASQ_Dump, ACQ_Dump, PeekCE, PrepLogFile, h1, h2, h3]
    · simp [VerifyHeadAndTailDoorBells, verifyResult, verifyReads, bind, Prog.bind, pure,
        Prog.pure, throwException, callUnit, callRead, ACQ_GetQMetrics, ASQ_GetQMetrics,
        LogCQMetrics, LogSQMetrics, LOG_ERR, ASQ_Dump, ACQ_Dump, PeekCE, PrepLogFile, h1, h2]
  · simp [VerifyHeadAndTailDoorBells, verifyResult, verifyReads, bind, Prog.bind, pure,
      Prog.pure, throwException, callUnit, callRead, ACQ_GetQMetrics, ASQ_GetQMetrics,
      LogCQMetrics, LogSQMetrics, LOG_ERR, ASQ_Dump, ACQ_Dump, PeekCE, PrepLogFile, h1]

theorem verify_st {σ : Type} (T : Test) (E : Env σ) (acq : SharedACQPtr)
    (asq : SharedASQPtr) (s : σ) : (VerifyHeadAndTailDoorBells T E acq asq s).st = s := by
  rw [verify_eq]; unfold verifyResult; split_ifs <;> rfl

theorem submit_eq {σ : Type} (T : Test) (D : Defs) (E : Env σ) (acq : SharedACQPtr)
    (asq : SharedASQPtr) (s : σ) :
    SubmitIdentifyCmd T D E acq asq s =
      ⟨Outcome.ret (), E.SendCmdToHdw (identifyArgs T D acq asq) s, submitTrace T D acq asq⟩ := by
  simp [SubmitIdentifyCmd, bind, Prog.bind, callUnit, LOG_NRM, SendCmdToHdw, identifyArgs,
    submitTrace]

theorem body_eq {σ : Type} (T : Test) (D : Defs) (E : Env σ) (acq : SharedACQPtr)
    (asq : SharedASQPtr) (i : Nat) (s : σ) :
    ValidateInitialStateAdmin.body T D E acq asq i s = bodyResult T D E acq asq s := by
  have hst := verify_st T E acq asq (verifyState T D E acq asq s)
  unfold ValidateInitialStateAdmin.body bodyResult
  simp only [enableState, verifyState, cycleEnd] at hst ⊢
  rcases hv : VerifyHeadAndTailDoorBells T E acq asq (E.SendCmdToHdw (identifyArgs T D acq asq)
    (E.SetState CtrlrState.ST_ENABLE (E.SetCSS D.CSS_NVM_CMDSET s)).2) with ⟨o, st, tr⟩
  rw [hv] at hst
  simp only at hst
  subst hst
  cases hE : (E.SetState CtrlrState.ST_ENABLE (E.SetCSS D.CSS_NVM_CMDSET s)).1
  · simp [bind, Prog.bind, callUnit, SetCSS, SetState, pure, Prog.pure, throwException, hE]
  · cases o with
    | exception =>
      simp [bind, Prog.bind, callUnit, SetCSS, SetState, submit_eq, pure, Prog.pure,
        throwException, hE, hv]
    | ret u =>
      rcases Bool.eq_false_or_eq_true (E.SetState CtrlrState.ST_DISABLE
        (E.SendCmdToHdw (identifyArgs T D acq asq)
          (E.SetState CtrlrState.ST_ENABLE (E.SetCSS D.CSS_NVM_CMDSET s)).2)).1 with hD | hD <;>
      simp [bind, Prog.bind, callUnit, SetCSS, SetState, submit_eq, pure, Prog.pure,
        throwException, hE, hv, hD]

/-- The two-iteration loop, as two runs of the body. -/
theorem validate_eq {σ : Type} (T : Test) (D : Defs) (E : Env σ) (acq : SharedACQPtr)
    (asq : SharedASQPtr) (s : σ) :
    ValidateInitialStateAdmin T D E acq asq s =
      if (bodyResult T D E acq asq s).out = Outcome.exception then bodyResult T D E acq asq s
      else
        ⟨(bodyResult T D E acq asq (bodyResult T D E acq asq s).st).out,
         (bodyResult T D E acq asq (bodyResult T D E acq asq s).st).st,
         (bodyResult T D E acq asq s).tr ++
           (bodyResult T D E acq asq (bodyResult T D E acq asq s).st).tr⟩ := by
  unfold ValidateInitialStateAdmin
  simp only [forLoop, Prog.bind, body_eq]
  rcases h1 : bodyResult T D E acq asq s with ⟨o1, s1, t1⟩
  cases o1 with
  | exception => simp
  | ret u =>
    rcases h2 : bodyResult T D E acq asq s1 with ⟨o2, s2, t2⟩
    cases o2 <;> simp [Prog.pure, h2]

/-! ## Facts about one verification -/

theorem cq_eq_one (m : nvme_gen_cq) (h : m.head_ptr = 1) : m = ⟨1⟩ := by
  cases m; simp_all

theorem sq_eq_one (m : nvme_gen_sq) (h : m.tail_ptr = 1) : m = ⟨1⟩ := by
  cases m; simp_all

/-- The verification returns normally exactly when the three values read are 1. -/
theorem verify_out_ret_iff {σ : Type} (T : Test) (E : Env σ) (acq : SharedACQPtr)
    (asq : SharedASQPtr) (s : σ) :
    (VerifyHeadAndTailDoorBells T E acq asq s).out = Outcome.ret () ↔
      ((E.ASQ_GetQMetrics asq s).tail_ptr = 1 ∧ (E.ACQ_GetQMetrics acq s).head_ptr = 1 ∧
        (E.PeekCE acq 0 s).n.SQHD = 1) := by
  rw [verify_eq]; unfold verifyResult
  by_cases h1 : (E.ASQ_GetQMetrics asq s).tail_ptr = 1
  · by_cases h2 : (E.ACQ_GetQMetrics acq s).head_ptr = 1
    · by_cases h3 : (E.PeekCE acq 0 s).n.SQHD = 1 <;> simp [h1, h2, h3]
    · simp [h1, h2]
  · simp [h1]

theorem out_cases (o : Outcome Unit) : o = Outcome.ret () ∨ o = Outcome.exception := by
  cases o with
  | ret u => exact Or.inl rfl
  | exception => exact Or.inr rfl

theorem out_exception_iff (o : Outcome Unit) : o = Outcome.exception ↔ ¬ o = Outcome.ret () := by
  cases o <;> simp

/-- Trace of a passing verification. -/
theorem verify_pass_tr {σ : Type} (T : Test) (E : Env σ) (acq : SharedACQPtr)
    (asq : SharedASQPtr) (s : σ) (h1 : (E.ASQ_GetQMetrics asq s).tail_ptr = 1)
    (h2 : (E.ACQ_GetQMetrics acq s).head_ptr = 1) (h3 : (E.PeekCE acq 0 s).n.SQHD = 1) :
    (VerifyHeadAndTailDoorBells T E acq asq s).tr = passVerifyTrace acq asq := by
  rw [verify_eq]; unfold verifyResult
  simp [h1, h2, h3, verifyReads, passVerifyTrace, cq_eq_one _ h2, sq_eq_one _ h1]

/-- A verification makes no controller call, no command submission and no setup call. -/
theorem verify_tr_kinds {σ : Type} (T : Test) (E : Env σ) (acq : SharedACQPtr)
    (asq : SharedASQPtr) (s : σ) :
    ∀ e ∈ (VerifyHeadAndTailDoorBells T E acq asq s).tr,
      e.isCtrlrOrCmd = false ∧ e.isSetup = false := by
  rw [verify_eq]; unfold verifyResult
  split_ifs <;> simp [verifyReads, Event.isCtrlrOrCmd, Event.isSetup]

/-- The index expression `head_ptr - 1` is 0 when `head_ptr` is 1. -/
theorem peek_index_zero (head : Nat) (h : head = 1) : ((head : Int) - 1) = 0 := by
  subst h; rfl

/-- Run of a verification that finds tail_ptr different from 1. -/
theorem verify_fail_tail {σ : Type} (T : Test) (E : Env σ) (acq : SharedACQPtr)
    (asq : SharedASQPtr) (s : σ) (h1 : (E.ASQ_GetQMetrics asq s).tail_ptr ≠ 1) :
    VerifyHeadAndTailDoorBells T E acq asq s =
      ⟨Outcome.exception, s, verifyReads E acq asq s ++
        [Event.LOG_ERR "Expected  ASQ.tail_ptr = 0x0001 but actual ASQ.tail_ptr  = 0x%04X"
          (E.ASQ_GetQMetrics asq s).tail_ptr,
         Event.PrepLogFile T.mGrpName T.mTestName "asq" "tail_ptr",
         Event.ASQ_Dump asq (E.PrepLogFile T.mGrpName T.mTestName "asq" "tail_ptr")
          "SQ Metrics Tail Pointer Inconsistent"]⟩ := by
  rw [verify_eq]; unfold verifyResult; rw [if_pos h1]

/-- Run of a verification that finds tail_ptr at 1 and head_ptr different from 1. -/
theorem verify_fail_head {σ : Type} (T : Test) (E : Env σ) (acq : SharedACQPtr)
    (asq : SharedASQPtr) (s : σ) (h1 : (E.ASQ_GetQMetrics asq s).tail_ptr = 1)
    (h2 : (E.ACQ_GetQMetrics acq s).head_ptr ≠ 1) :
    VerifyHeadAndTailDoorBells T E acq asq s =
      ⟨Outcome.exception, s, verifyReads E acq asq s ++
        [Event.LOG_ERR "Expected ACQ.head_ptr = 0x0001 but actual ACQ.head_ptr = 0x%04X"
          (E.ACQ_GetQMetrics acq s).head_ptr,
         Event.PrepLogFile T.mGrpName T.mTestName "acq" "head_ptr",
         Event.ACQ_Dump acq (E.PrepLogFile T.mGrpName T.mTestName "acq" "head_ptr")
          "CQ Metrics Head Pointer Inconsistent"]⟩ := by
  rw [verify_eq]; unfold verifyResult; rw [if_neg (not_not.mpr h1), if_pos h2]

/-- Run of a verification that finds tail_ptr and head_ptr at 1 and SQHD different from 1. -/
theorem verify_fail_sqhd {σ : Type} (T : Test) (E : Env σ) (acq : SharedACQPtr)
    (asq : SharedASQPtr) (s : σ) (h1 : (E.ASQ_GetQMetrics asq s).tail_ptr = 1)
    (h2 : (E.ACQ_GetQMetrics acq s).head_ptr = 1) (h3 : (E.PeekCE acq 0 s).n.SQHD ≠ 1) :
    VerifyHeadAndTailDoorBells T E acq asq s =
      ⟨Outcome.exception, s, verifyReads E acq asq s ++
        [Event.PeekCE acq 0,
         Event.LOG_ERR
          "Expected CE.SQHD = 0x0001 in ACQ completion entry but actual CE.SQHD  = 0x%04X"
          (E.PeekCE acq 0 s).n.SQHD,
         Event.PrepLogFile T.mGrpName T.mTestName "acq" "CE.SQHD",
         Event.ACQ_Dump acq (E.PrepLogFile T.mGrpName T.mTestName "acq" "CE.SQHD")
          "CE SQ Head Pointer Inconsistent"]⟩ := by
  rw [verify_eq]; unfold verifyResult
  rw [if_neg (not_not.mpr h1), if_neg (not_not.mpr h2), if_pos h3]

/-- Run of a verification that finds the three values at 1. -/
theorem verify_pass {σ : Type} (T : Test) (E : Env σ) (acq : SharedACQPtr)
    (asq : SharedASQPtr) (s : σ) (h1 : (E.ASQ_GetQMetrics asq s).tail_ptr = 1)
    (h2 : (E.ACQ_GetQMetrics acq s).head_ptr = 1) (h3 : (E.PeekCE acq 0 s).n.SQHD = 1) :
    VerifyHeadAndTailDoorBells T E acq asq s =
      ⟨Outcome.ret (), s, verifyReads E acq asq s ++ [Event.PeekCE acq 0]⟩ := by
  rw [verify_eq]; unfold verifyResult
  rw [if_neg (not_not.mpr h1), if_neg (not_not.mpr h2), if_neg (not_not.mpr h3)]

/-! ## Facts about one cycle and about the loop -/

/-- A cycle whose `SetState(ST_ENABLE)` reports failure. -/
theorem body_enable_fail {σ : Type} (T : Test) (D : Defs) (E : Env σ) (acq : SharedACQPtr)
    (asq : SharedASQPtr) (s : σ)
    (hE : (E.SetState CtrlrState.ST_ENABLE (enableState D E s)).1 = false) :
    bodyResult T D E acq asq s =
      ⟨Outcome.exception, (E.SetState CtrlrState.ST_ENABLE (enableState D E s)).2,
        [Event.SetCSS D.CSS_NVM_CMDSET, Event.SetState CtrlrState.ST_ENABLE false]⟩ := by
  simp [bodyResult, hE]

/-- A cycle whose verification raises the fatal signal. -/
theorem body_verify_fail {σ : Type} (T : Test) (D : Defs) (E : Env σ) (acq : SharedACQPtr)
    (asq : SharedASQPtr) (s : σ)
    (hE : (E.SetState CtrlrState.ST_ENABLE (enableState D E s)).1 = true)
    (hV : (VerifyHeadAndTailDoorBells T E acq asq (verifyState T D E acq asq s)).out =
      Outcome.exception) :
    bodyResult T D E acq asq s =
      ⟨Outcome.exception, verifyState T D E acq asq s,
        [Event.SetCSS D.CSS_NVM_CMDSET, Event.SetState CtrlrState.ST_ENABLE true] ++
          submitTrace T D acq asq ++
          (VerifyHeadAndTailDoorBells T E acq asq (verifyState T D E acq asq s)).tr⟩ := by
  simp [bodyResult, hE, hV]

/-- A cycle that reaches its `SetState(ST_DISABLE)`. -/
theorem body_reach_disable {σ : Type} (T : Test) (D : Defs) (E : Env σ) (acq : SharedACQPtr)
    (asq : SharedASQPtr) (s : σ)
    (hE : (E.SetState CtrlrState.ST_ENABLE (enableState D E s)).1 = true)
    (hV : (VerifyHeadAndTailDoorBells T E acq asq (verifyState T D E acq asq s)).out =
      Outcome.ret ()) :
    bodyResult T D E acq asq s =
      ⟨if (E.SetState CtrlrState.ST_DISABLE (verifyState T D E acq asq s)).1 = false
         then Outcome.exception else Outcome.ret (),
        cycleEnd T D E acq asq s,
        [Event.SetCSS D.CSS_NVM_CMDSET, Event.SetState CtrlrState.ST_ENABLE true] ++
          submitTrace T D acq asq ++ passVerifyTrace acq asq ++
          [Event.SetState CtrlrState.ST_DISABLE
            (E.SetState CtrlrState.ST_DISABLE (verifyState T D E acq asq s)).1]⟩ := by
  obtain ⟨h1, h2, h3⟩ := (verify_out_ret_iff T E acq asq _).mp hV
  simp [bodyResult, hE, hV, verify_pass_tr T E acq asq _ h1 h2 h3]

/-- A fully successful cycle. -/
theorem body_pass {σ : Type} (T : Test) (D : Defs) (E : Env σ) (acq : SharedACQPtr)
    (asq : SharedASQPtr) (s : σ)
    (hE : (E.SetState CtrlrState.ST_ENABLE (enableState D E s)).1 = true)
    (hV : (VerifyHeadAndTailDoorBells T E acq asq (verifyState T D E acq asq s)).out =
      Outcome.ret ())
    (hD : (E.SetState CtrlrState.ST_DISABLE (verifyState T D E acq asq s)).1 = true) :
    bodyResult T D E acq asq s =
      ⟨Outcome.ret (), cycleEnd T D E acq asq s, passCycleTrace T D acq asq⟩ := by
  rw [body_reach_disable T D E acq asq s hE hV]
  simp [hD, passCycleTrace]

/-- A cycle returns normally only if both transitions succeeded and the verification passed. -/
theorem body_ret_inv {σ : Type} (T : Test) (D : Defs) (E : Env σ) (acq : SharedACQPtr)
    (asq : SharedASQPtr) (s : σ) (h : (bodyResult T D E acq asq s).out = Outcome.ret ()) :
    (E.SetState CtrlrState.ST_ENABLE (enableState D E s)).1 = true ∧
    (VerifyHeadAndTailDoorBells T E acq asq (verifyState T D E acq asq s)).out =
      Outcome.ret () ∧
    (E.SetState CtrlrState.ST_DISABLE (verifyState T D E acq asq s)).1 = true := by
  rcases Bool.eq_false_or_eq_true (E.SetState CtrlrState.ST_ENABLE (enableState D E s)).1
    with hE | hE
  · rcases out_cases (VerifyHeadAndTailDoorBells T E acq asq (verifyState T D E acq asq s)).out
      with hV | hV
    · rcases Bool.eq_false_or_eq_true
        (E.SetState CtrlrState.ST_DISABLE (verifyState T D E acq asq s)).1 with hD | hD
      · exact ⟨hE, hV, hD⟩
      · rw [body_reach_disable T D E acq asq s hE hV] at h
        simp [hD] at h
    · rw [body_verify_fail T D E acq asq s hE hV] at h
      simp at h
  · rw [body_enable_fail T D E acq asq s hE] at h
    simp at h

/-- Splitting a list at an element that does not occur in its first part. -/
theorem split_of_not_mem {α : Type} (e : α) (l1 l2 : List α) :
    ∀ (pre post : List α), e ∉ l1 → l1 ++ l2 = pre ++ e :: post →
      ∃ pre2, pre = l1 ++ pre2 ∧ l2 = pre2 ++ e :: post := by
  induction l1 with
  | nil => intro pre post _ h; exact ⟨pre, rfl, h⟩
  | cons a l1 ih =>
    intro pre post hn h
    cases pre with
    | nil =>
      simp only [List.cons_append, List.nil_append, List.cons.injEq] at h
      exact absurd h.1.symm (fun hea => hn (by simp [hea]))
    | cons b pre =>
      simp only [List.cons_append, List.cons.injEq] at h
      obtain ⟨pre2, hp, hl⟩ := ih pre post (fun hm => hn (List.mem_cons_of_mem _ hm)) h.2
      exact ⟨pre2, by rw [h.1, hp]; rfl, hl⟩

/-- A one-element list split around an element. -/
theorem singleton_split {α : Type} (a e : α) (pre post : List α)
    (h : [a] = pre ++ e :: post) : pre = [] ∧ post = [] ∧ a = e := by
  cases pre with
  | nil => simp at h; exact ⟨rfl, h.2, h.1⟩
  | cons b pre => simp at h

/-- No `SetState` call occurs in the calls of a verification. -/
theorem setState_not_mem_verify {σ : Type} (T : Test) (E : Env σ) (acq : SharedACQPtr)
    (asq : SharedASQPtr) (s : σ) (st : CtrlrState) (b : Bool) :
    Event.SetState st b ∉ (VerifyHeadAndTailDoorBells T E acq asq s).tr := by
  intro hm
  have := (verify_tr_kinds T E acq asq s _ hm).1
  simp [Event.isCtrlrOrCmd] at this

/-- Where a failed `SetState` may occur in the calls of one cycle: only as the last call,
and then the cycle raises the fatal signal; a failed enable is preceded by `SetCSS` only. -/
theorem body_failed_setState {σ : Type} (T : Test) (D : Defs) (E : Env σ) (acq : SharedACQPtr)
    (asq : SharedASQPtr) (s : σ) (st : CtrlrState) (pre post : List Event)
    (h : (bodyResult T D E acq asq s).tr = pre ++ Event.SetState st false :: post) :
    (bodyResult T D E acq asq s).out = Outcome.exception ∧ post = [] ∧
      (st = CtrlrState.ST_ENABLE → pre = [Event.SetCSS D.CSS_NVM_CMDSET]) := by
  rcases Bool.eq_false_or_eq_true (E.SetState CtrlrState.ST_ENABLE (enableState D E s)).1
    with hE | hE
  · have hnv : Event.SetState st false ∉
        [Event.SetCSS D.CSS_NVM_CMDSET, Event.SetState CtrlrState.ST_ENABLE true] ++
          submitTrace T D acq asq ++
          (VerifyHeadAndTailDoorBells T E acq asq (verifyState T D E acq asq s)).tr := by
      simp [submitTrace, setState_not_mem_verify]
    rcases out_cases (VerifyHeadAndTailDoorBells T E acq asq (verifyState T D E acq asq s)).out
      with hV | hV
    · have hnp : Event.SetState st false ∉
          [Event.SetCSS D.CSS_NVM_CMDSET, Event.SetState CtrlrState.ST_ENABLE true] ++
            submitTrace T D acq asq ++ passVerifyTrace acq asq := by
        simp [submitTrace, passVerifyTrace]
      rw [body_reach_disable T D E acq asq s hE hV] at h ⊢
      obtain ⟨pre2, hp, hl⟩ := split_of_not_mem _ _ _ pre post hnp h
      obtain ⟨hp2, hpost, he⟩ := singleton_split _ _ _ _ hl
      simp only [Event.SetState.injEq] at he
      refine ⟨by simp [he.2], hpost, fun hst => ?_⟩
      rw [hst] at he
      exact absurd he.1 (by decide)
    · rw [body_verify_fail T D E acq asq s hE hV] at h
      have h3 : [Event.SetCSS D.CSS_NVM_CMDSET, Event.SetState CtrlrState.ST_ENABLE true] ++
          submitTrace T D acq asq ++
          (VerifyHeadAndTailDoorBells T E acq asq (verifyState T D E acq asq s)).tr =
          pre ++ Event.SetState st false :: post := h
      exact absurd (by rw [h3]; simp) hnv
  · rw [body_enable_fail T D E acq asq s hE] at h ⊢
    have h2 : [Event.SetCSS D.CSS_NVM_CMDSET] ++ [Event.SetState CtrlrState.ST_ENABLE false] =
        pre ++ Event.SetState st false :: post := h
    obtain ⟨pre2, hp, hl⟩ := split_of_not_mem _ _ _ pre post (by simp) h2
    obtain ⟨hp2, hpost, _⟩ := singleton_split _ _ _ _ hl
    exact ⟨rfl, hpost, fun _ => by rw [hp, hp2]; rfl⟩

/-- A cycle that returns normally made no failed `SetState` call. -/
theorem body_ret_no_failed_setState {σ : Type} (T : Test) (D : Defs) (E : Env σ)
    (acq : SharedACQPtr) (asq : SharedASQPtr) (s : σ) (st : CtrlrState)
    (h : (bodyResult T D E acq asq s).out = Outcome.ret ()) :
    Event.SetState st false ∉ (bodyResult T D E acq asq s).tr := by
  intro hm
  obtain ⟨pre, post, hsplit⟩ := List.append_of_mem hm
  have := (body_failed_setState T D E acq asq s st pre post hsplit).1
  rw [h] at this
  simp at this

/-- Run of the loop when the first cycle raises the fatal signal. -/
theorem validate_first_fails {σ : Type} (T : Test) (D : Defs) (E : Env σ) (acq : SharedACQPtr)
    (asq : SharedASQPtr) (s : σ) (h : (bodyResult T D E acq asq s).out = Outcome.exception) :
    ValidateInitialStateAdmin T D E acq asq s = bodyResult T D E acq asq s := by
  rw [validate_eq, if_pos h]

/-- Run of the loop when the first cycle returns normally. -/
theorem validate_first_ret {σ : Type} (T : Test) (D : Defs) (E : Env σ) (acq : SharedACQPtr)
    (asq : SharedASQPtr) (s : σ) (h : (bodyResult T D E acq asq s).out = Outcome.ret ()) :
    ValidateInitialStateAdmin T D E acq asq s =
      ⟨(bodyResult T D E acq asq (cycleEnd T D E acq asq s)).out,
       (bodyResult T D E acq asq (cycleEnd T D E acq asq s)).st,
       (bodyResult T D E acq asq s).tr ++
         (bodyResult T D E acq asq (cycleEnd T D E acq asq s)).tr⟩ := by
  obtain ⟨hE, hV, hD⟩ := body_ret_inv T D E acq asq s h
  have hst : (bodyResult T D E acq asq s).st = cycleEnd T D E acq asq s := by
    rw [body_pass T D E acq asq s hE hV hD]
  rw [validate_eq, if_neg (by rw [h]; simp), hst]

/-- Where a failed `SetState` may occur in the calls of the whole loop: only as the last
call, and then the loop raises the fatal signal. -/
theorem validate_failed_setState {σ : Type} (T : Test) (D : Defs) (E : Env σ)
    (acq : SharedACQPtr) (asq : SharedASQPtr) (s : σ) (st : CtrlrState) (pre post : List Event)
    (h : (ValidateInitialStateAdmin T D E acq asq s).tr =
      pre ++ Event.SetState st false :: post) :
    (ValidateInitialStateAdmin T D E acq asq s).out = Outcome.exception ∧ post = [] ∧
      (st = CtrlrState.ST_ENABLE →
        pre = [Event.SetCSS D.CSS_NVM_CMDSET] ∨
        ((bodyResult T D E acq asq s).out = Outcome.ret () ∧
          pre = (bodyResult T D E acq asq s).tr ++ [Event.SetCSS D.CSS_NVM_CMDSET])) := by
  rcases out_cases (bodyResult T D E acq asq s).out with h1 | h1
  · rw [validate_first_ret T D E acq asq s h1] at h ⊢
    obtain ⟨pre2, hp, hl⟩ := split_of_not_mem _ _ _ pre post
      (body_ret_no_failed_setState T D E acq asq s st h1) h
    obtain ⟨ho, hpost, hpre⟩ := body_failed_setState T D E acq asq _ st pre2 post hl
    exact ⟨ho, hpost, fun hst => Or.inr ⟨h1, by rw [hp, hpre hst]⟩⟩
  · rw [validate_first_fails T D E acq asq s h1] at h ⊢
    obtain ⟨ho, hpost, hpre⟩ := body_failed_setState T D E acq asq s st pre post h
    exact ⟨ho, hpost, fun hst => Or.inl (hpre hst)⟩

/-- A failing verification makes exactly one dump. -/
theorem verify_fail_dumps_length {σ : Type} (T : Test) (E : Env σ) (acq : SharedACQPtr)
    (asq : SharedASQPtr) (s : σ)
    (h : (VerifyHeadAndTailDoorBells T E acq asq s).out = Outcome.exception) :
    (dumps (VerifyHeadAndTailDoorBells T E acq asq s).tr).length = 1 := by
  by_cases h1 : (E.ASQ_GetQMetrics asq s).tail_ptr = 1
  · by_cases h2 : (E.ACQ_GetQMetrics acq s).head_ptr = 1
    · by_cases h3 : (E.PeekCE acq 0 s).n.SQHD = 1
      · rw [(verify_out_ret_iff T E acq asq s).mpr ⟨h1, h2, h3⟩] at h
        exact absurd h (by simp)
      · rw [verify_fail_sqhd T E acq asq s h1 h2 h3]; rfl
    · rw [verify_fail_head T E acq asq s h1 h2]; rfl
  · rw [verify_fail_tail T E acq asq s h1]; rfl

/-- No `SetState` call is kept when filtering the calls of a verification. -/
theorem verify_filter_setState {σ : Type} (T : Test) (E : Env σ) (acq : SharedACQPtr)
    (asq : SharedASQPtr) (s : σ) (st : CtrlrState) :
    (VerifyHeadAndTailDoorBells T E acq asq s).tr.filter (Event.isSetState st) = [] := by
  rw [List.filter_eq_nil_iff]
  intro e he hs
  have hk := (verify_tr_kinds T E acq asq s e he).1
  cases e <;> simp_all [Event.isSetState, Event.isCtrlrOrCmd]

/-- Each cycle calls `SetState(state)` at most once, for each target state. -/
theorem body_setState_once {σ : Type} (T : Test) (D : Defs) (E : Env σ) (acq : SharedACQPtr)
    (asq : SharedASQPtr) (s : σ) (st : CtrlrState) :
    ((bodyResult T D E acq asq s).tr.filter (Event.isSetState st)).length ≤ 1 := by
  rcases Bool.eq_false_or_eq_true (E.SetState CtrlrState.ST_ENABLE (enableState D E s)).1
    with hE | hE
  · rcases out_cases (VerifyHeadAndTailDoorBells T E acq asq (verifyState T D E acq asq s)).out
      with hV | hV
    · rw [body_reach_disable T D E acq asq s hE hV]
      cases st <;>
        simp [List.filter, Event.isSetState, submitTrace, passVerifyTrace]
    · rw [body_verify_fail T D E acq asq s hE hV]
      simp only [List.filter_append, verify_filter_setState, List.append_nil]
      cases st <;> simp [List.filter, Event.isSetState, submitTrace]
  · rw [body_enable_fail T D E acq asq s hE]
    cases st <;> simp [List.filter, Event.isSetState]

/-- A cycle makes no allocation and no queue initialisation. -/
theorem body_tr_no_setup {σ : Type} (T : Test) (D : Defs) (E : Env σ) (acq : SharedACQPtr)
    (asq : SharedASQPtr) (s : σ) :
    ∀ e ∈ (bodyResult T D E acq asq s).tr, e.isSetup = false := by
  intro e he
  rcases Bool.eq_false_or_eq_true (E.SetState CtrlrState.ST_ENABLE (enableState D E s)).1
    with hE | hE
  · rcases out_cases (VerifyHeadAndTailDoorBells T E acq asq (verifyState T D E acq asq s)).out
      with hV | hV
    · rw [body_reach_disable T D E acq asq s hE hV] at he
      simp [submitTrace, passVerifyTrace] at he
      rcases he with h | h | h | h | h | h | h | h | h | h | h | h <;> rw [h] <;> rfl
    · rw [body_verify_fail T D E acq asq s hE hV] at he
      simp [submitTrace] at he
      rcases he with h | h | h | h | h | h | h
      · rw [h]; rfl
      · rw [h]; rfl
      · rw [h]; rfl
      · rw [h]; rfl
      · rw [h]; rfl
      · rw [h]; rfl
      · exact (verify_tr_kinds T E acq asq _ e h).2
  · rw [body_enable_fail T D E acq asq s hE] at he
    simp at he
    rcases he with h | h <;> rw [h] <;> rfl

/-- The loop makes no allocation and no queue initialisation. -/
theorem validate_tr_no_setup {σ : Type} (T : Test) (D : Defs) (E : Env σ) (acq : SharedACQPtr)
    (asq : SharedASQPtr) (s : σ) :
    ∀ e ∈ (ValidateInitialStateAdmin T D E acq asq s).tr, e.isSetup = false := by
  intro e he
  rcases out_cases (bodyResult T D E acq asq s).out with h1 | h1
  · rw [validate_first_ret T D E acq asq s h1] at he
    rcases List.mem_append.mp he with h | h
    · exact body_tr_no_setup T D E acq asq s e h
    · exact body_tr_no_setup T D E acq asq _ e h
  · rw [validate_first_fails T D E acq asq s h1] at he
    exact body_tr_no_setup T D E acq asq s e he

/-! ## Claims about `VerifyHeadAndTailDoorBells` -/

/-- C1: `VerifyHeadAndTailDoorBells` returns without raising the fatal signal if and only if
the ASQ tail_ptr is 1, the ACQ head_ptr is 1 and the completion entry peeked at index
`head_ptr - 1` has SQHD equal to 1; in every other case it raises the fatal signal. -/
theorem C1_verify_returns_iff {σ : Type} (T : Test) (E : Env σ) (acq : SharedACQPtr)
    (asq : SharedASQPtr) (s : σ) :
    ((VerifyHeadAndTailDoorBells T E acq asq s).out = Outcome.ret () ↔
      ((E.ASQ_GetQMetrics asq s).tail_ptr = 1 ∧ (E.ACQ_GetQMetrics acq s).head_ptr = 1 ∧
        (E.PeekCE acq (((E.ACQ_GetQMetrics acq s).head_ptr : Int) - 1) s).n.SQHD = 1)) ∧
    ((VerifyHeadAndTailDoorBells T E acq asq s).out = Outcome.exception ↔
      ¬ ((E.ASQ_GetQMetrics asq s).tail_ptr = 1 ∧ (E.ACQ_GetQMetrics acq s).head_ptr = 1 ∧
        (E.PeekCE acq (((E.ACQ_GetQMetrics acq s).head_ptr : Int) - 1) s).n.SQHD = 1)) := by
  have key : (VerifyHeadAndTailDoorBells T E acq asq s).out = Outcome.ret () ↔
      ((E.ASQ_GetQMetrics asq s).tail_ptr = 1 ∧ (E.ACQ_GetQMetrics acq s).head_ptr = 1 ∧
        (E.PeekCE acq (((E.ACQ_GetQMetrics acq s).head_ptr : Int) - 1) s).n.SQHD = 1) := by
    rw [verify_out_ret_iff]
    constructor
    · rintro ⟨h1, h2, h3⟩
      exact ⟨h1, h2, by rw [peek_index_zero _ h2]; exact h3⟩
    · rintro ⟨h1, h2, h3⟩
      exact ⟨h1, h2, by rw [peek_index_zero _ h2] at h3; exact h3⟩
  exact ⟨key, by rw [out_exception_iff, key]⟩

/-- C8: every `PeekCE` call of `VerifyHeadAndTailDoorBells` is on the ACQ with index exactly 0,
which is the value of `head_ptr - 1` since it is made only after tail_ptr = 1 and
head_ptr = 1 were established; no `PeekCE` call is made when tail_ptr or head_ptr is not 1
(in particular when head_ptr is 0), and exactly one is made otherwise. -/
theorem C8_peek_only_at_index_zero {σ : Type} (T : Test) (E : Env σ) (acq : SharedACQPtr)
    (asq : SharedASQPtr) (s : σ) :
    (∀ p i, Event.PeekCE p i ∈ (VerifyHeadAndTailDoorBells T E acq asq s).tr →
      p = acq ∧ i = 0 ∧ i = ((E.ACQ_GetQMetrics acq s).head_ptr : Int) - 1 ∧
      (E.ASQ_GetQMetrics asq s).tail_ptr = 1 ∧ (E.ACQ_GetQMetrics acq s).head_ptr = 1) ∧
    (((E.ASQ_GetQMetrics asq s).tail_ptr ≠ 1 ∨ (E.ACQ_GetQMetrics acq s).head_ptr ≠ 1) →
      (VerifyHeadAndTailDoorBells T E acq asq s).tr.filter Event.isPeekCE = []) ∧
    ((E.ACQ_GetQMetrics acq s).head_ptr = 0 →
      (VerifyHeadAndTailDoorBells T E acq asq s).tr.filter Event.isPeekCE = []) ∧
    (((E.ASQ_GetQMetrics asq s).tail_ptr = 1 ∧ (E.ACQ_GetQMetrics acq s).head_ptr = 1) →
      (VerifyHeadAndTailDoorBells T E acq asq s).tr.filter Event.isPeekCE =
        [Event.PeekCE acq 0]) := by
  rw [verify_eq]; unfold verifyResult
  by_cases h1 : (E.ASQ_GetQMetrics asq s).tail_ptr = 1
  · by_cases h2 : (E.ACQ_GetQMetrics acq s).head_ptr = 1
    · by_cases h3 : (E.PeekCE acq 0 s).n.SQHD = 1 <;>
      simp [h1, h2, h3, verifyReads, Event.isPeekCE, List.filter]
    · simp [h1, h2, verifyReads, Event.isPeekCE, List.filter]
  · simp [h1, verifyReads, Event.isPeekCE, List.filter]

/-- C9: `VerifyHeadAndTailDoorBells` checks tail_ptr, then head_ptr, then CE.SQHD and stops
at the first violation: a failing call makes exactly one dump, which is its last call, on
the queue and with the tag of the first violated invariant (asq/"tail_ptr", acq/"head_ptr",
acq/"CE.SQHD"); a passing call makes no dump.  When tail_ptr is not 1 the dump is the ASQ
dump tagged "tail_ptr" whatever head_ptr and SQHD are. -/
theorem C9_single_dump_at_first_violation {σ : Type} (T : Test) (E : Env σ)
    (acq : SharedACQPtr) (asq : SharedASQPtr) (s : σ) :
    ((E.ASQ_GetQMetrics asq s).tail_ptr ≠ 1 →
      (VerifyHeadAndTailDoorBells T E acq asq s).out = Outcome.exception ∧
      dumps (VerifyHeadAndTailDoorBells T E acq asq s).tr =
        [Event.ASQ_Dump asq (E.PrepLogFile T.mGrpName T.mTestName "asq" "tail_ptr")
          "SQ Metrics Tail Pointer Inconsistent"] ∧
      prepTags (VerifyHeadAndTailDoorBells T E acq asq s).tr = ["tail_ptr"]) ∧
    ((E.ASQ_GetQMetrics asq s).tail_ptr = 1 → (E.ACQ_GetQMetrics acq s).head_ptr ≠ 1 →
      (VerifyHeadAndTailDoorBells T E acq asq s).out = Outcome.exception ∧
      dumps (VerifyHeadAndTailDoorBells T E acq asq s).tr =
        [Event.ACQ_Dump acq (E.PrepLogFile T.mGrpName T.mTestName "acq" "head_ptr")
          "CQ Metrics Head Pointer Inconsistent"] ∧
      prepTags (VerifyHeadAndTailDoorBells T E acq asq s).tr = ["head_ptr"]) ∧
    ((E.ASQ_GetQMetrics asq s).tail_ptr = 1 → (E.ACQ_GetQMetrics acq s).head_ptr = 1 →
      (E.PeekCE acq 0 s).n.SQHD ≠ 1 →
      (VerifyHeadAndTailDoorBells T E acq asq s).out = Outcome.exception ∧
      dumps (VerifyHeadAndTailDoorBells T E acq asq s).tr =
        [Event.ACQ_Dump acq (E.PrepLogFile T.mGrpName T.mTestName "acq" "CE.SQHD")
          "CE SQ Head Pointer Inconsistent"] ∧
      prepTags (VerifyHeadAndTailDoorBells T E acq asq s).tr = ["CE.SQHD"]) ∧
    ((VerifyHeadAndTailDoorBells T E acq asq s).out = Outcome.ret () →
      dumps (VerifyHeadAndTailDoorBells T E acq asq s).tr = [] ∧
      prepTags (VerifyHeadAndTailDoorBells T E acq asq s).tr = []) ∧
    ((VerifyHeadAndTailDoorBells T E acq asq s).out = Outcome.exception →
      ∃ pre d, (VerifyHeadAndTailDoorBells T E acq asq s).tr = pre ++ [d] ∧
        d.isDump = true ∧ dumps pre = []) := by
  refine ⟨fun h1 => ?_, fun h1 h2 => ?_, fun h1 h2 h3 => ?_, fun h => ?_, fun h => ?_⟩
  · rw [verify_fail_tail T E acq asq s h1]; exact ⟨rfl, rfl, rfl⟩
  · rw [verify_fail_head T E acq asq s h1 h2]; exact ⟨rfl, rfl, rfl⟩
  · rw [verify_fail_sqhd T E acq asq s h1 h2 h3]; exact ⟨rfl, rfl, rfl⟩
  · obtain ⟨h1, h2, h3⟩ := (verify_out_ret_iff T E acq asq s).mp h
    rw [verify_pass T E acq asq s h1 h2 h3]; exact ⟨rfl, rfl⟩
  · by_cases h1 : (E.ASQ_GetQMetrics asq s).tail_ptr = 1
    · by_cases h2 : (E.ACQ_GetQMetrics acq s).head_ptr = 1
      · by_cases h3 : (E.PeekCE acq 0 s).n.SQHD = 1
        · rw [(verify_out_ret_iff T E acq asq s).mpr ⟨h1, h2, h3⟩] at h
          exact absurd h (by simp)
        · rw [verify_fail_sqhd T E acq asq s h1 h2 h3]
          exact ⟨verifyReads E acq asq s ++ [Event.PeekCE acq 0,
            Event.LOG_ERR
              "Expected CE.SQHD = 0x0001 in ACQ completion entry but actual CE.SQHD  = 0x%04X"
              (E.PeekCE acq 0 s).n.SQHD,
            Event.PrepLogFile T.mGrpName T.mTestName "acq" "CE.SQHD"],
            Event.ACQ_Dump acq (E.PrepLogFile T.mGrpName T.mTestName "acq" "CE.SQHD")
              "CE SQ Head Pointer Inconsistent", by simp, rfl, rfl⟩
      · rw [verify_fail_head T E acq asq s h1 h2]
        exact ⟨verifyReads E acq asq s ++ [
          Event.LOG_ERR "Expected ACQ.head_ptr = 0x0001 but actual ACQ.head_ptr = 0x%04X"
            (E.ACQ_GetQMetrics acq s).head_ptr,
          Event.PrepLogFile T.mGrpName T.mTestName "acq" "head_ptr"],
          Event.ACQ_Dump acq (E.PrepLogFile T.mGrpName T.mTestName "acq" "head_ptr")
            "CQ Metrics Head Pointer Inconsistent", by simp, rfl, rfl⟩
    · rw [verify_fail_tail T E acq asq s h1]
      exact ⟨verifyReads E acq asq s ++ [
        Event.LOG_ERR "Expected  ASQ.tail_ptr = 0x0001 but actual ASQ.tail_ptr  = 0x%04X"
          (E.ASQ_GetQMetrics asq s).tail_ptr,
        Event.PrepLogFile T.mGrpName T.mTestName "asq" "tail_ptr"],
        Event.ASQ_Dump asq (E.PrepLogFile T.mGrpName T.mTestName "asq" "tail_ptr")
          "SQ Metrics Tail Pointer Inconsistent", by simp, rfl, rfl⟩

/-- C5 (as stated) fails: on a controller left with tail_ptr = 2, head_ptr = 2 and SQHD = 2
in the entry at index `head_ptr - 1` after two commands, all three invariants are violated
but exactly one dump is made. -/
theorem C5_counterexample :
    violatedCount
      ((simEnv cfgAccumulate).ASQ_GetQMetrics ⟨1⟩ (simSend (simSend simInit))).tail_ptr
      ((simEnv cfgAccumulate).ACQ_GetQMetrics ⟨0⟩ (simSend (simSend simInit))).head_ptr
      ((simEnv cfgAccumulate).PeekCE ⟨0⟩
        ((((simEnv cfgAccumulate).ACQ_GetQMetrics ⟨0⟩ (simSend (simSend simInit))).head_ptr : Int)
          - 1) (simSend (simSend simInit))).n.SQHD = 3 ∧
    (dumpPaths (VerifyHeadAndTailDoorBells simTest (simEnv cfgAccumulate) ⟨0⟩ ⟨1⟩
      (simSend (simSend simInit))).tr).length = 1 ∧
    (dumpPaths (VerifyHeadAndTailDoorBells simTest (simEnv cfgAccumulate) ⟨0⟩ ⟨1⟩
      (simSend (simSend simInit))).tr).length ≠
    violatedCount
      ((simEnv cfgAccumulate).ASQ_GetQMetrics ⟨1⟩ (simSend (simSend simInit))).tail_ptr
      ((simEnv cfgAccumulate).ACQ_GetQMetrics ⟨0⟩ (simSend (simSend simInit))).head_ptr
      ((simEnv cfgAccumulate).PeekCE ⟨0⟩
        ((((simEnv cfgAccumulate).ACQ_GetQMetrics ⟨0⟩ (simSend (simSend simInit))).head_ptr : Int)
          - 1) (simSend (simSend simInit))).n.SQHD := by
  decide

/-- C5 (amended): the number of dumps made by `VerifyHeadAndTailDoorBells` is 1 when at least
one of the invariants tail_ptr = 1, head_ptr = 1, CE.SQHD = 1 is violated and 0 when none is
(the minimum of 1 and the number of violated invariants); the dump path is the one prepared
with the queue name and field-name tag of the first violated invariant in the order
tail_ptr, head_ptr, CE.SQHD; and the three tags are pairwise distinct. -/
theorem C5_one_dump_tagged_by_first_violation {σ : Type} (T : Test) (E : Env σ)
    (acq : SharedACQPtr) (asq : SharedASQPtr) (s : σ) :
    (dumpPaths (VerifyHeadAndTailDoorBells T E acq asq s).tr).length =
      min 1 (violatedCount (E.ASQ_GetQMetrics asq s).tail_ptr (E.ACQ_GetQMetrics acq s).head_ptr
        (E.PeekCE acq (((E.ACQ_GetQMetrics acq s).head_ptr : Int) - 1) s).n.SQHD) ∧
    dumpPaths (VerifyHeadAndTailDoorBells T E acq asq s).tr =
      (firstViolated (E.ASQ_GetQMetrics asq s).tail_ptr (E.ACQ_GetQMetrics acq s).head_ptr
        (E.PeekCE acq (((E.ACQ_GetQMetrics acq s).head_ptr : Int) - 1) s).n.SQHD).toList.map
        (fun v => E.PrepLogFile T.mGrpName T.mTestName v.queueName v.fieldName) ∧
    prepTags (VerifyHeadAndTailDoorBells T E acq asq s).tr =
      (firstViolated (E.ASQ_GetQMetrics asq s).tail_ptr (E.ACQ_GetQMetrics acq s).head_ptr
        (E.PeekCE acq (((E.ACQ_GetQMetrics acq s).head_ptr : Int) - 1) s).n.SQHD).toList.map
        Invariant.fieldName ∧
    Function.Injective Invariant.fieldName := by
  have hinj : Function.Injective Invariant.fieldName := by
    intro a b h
    cases a <;> cases b <;> first | rfl | exact absurd h (by decide)
  by_cases h1 : (E.ASQ_GetQMetrics asq s).tail_ptr = 1
  · by_cases h2 : (E.ACQ_GetQMetrics acq s).head_ptr = 1
    · rw [peek_index_zero _ h2]
      by_cases h3 : (E.PeekCE acq 0 s).n.SQHD = 1
      · rw [verify_pass T E acq asq s h1 h2 h3]
        simp [violatedCount, firstViolated, h1, h2, h3, verifyReads, dumpPaths, prepTags, hinj]
      · rw [verify_fail_sqhd T E acq asq s h1 h2 h3]
        simp [violatedCount, firstViolated, h1, h2, h3, verifyReads, dumpPaths, prepTags, hinj,
          Invariant.queueName, Invariant.fieldName]
    · rw [verify_fail_head T E acq asq s h1 h2]
      simp [violatedCount, firstViolated, h1, h2, verifyReads, dumpPaths, prepTags, hinj,
          Invariant.queueName, Invariant.fieldName]
  · rw [verify_fail_tail T E acq asq s h1]
    simp [violatedCount, firstViolated, h1, verifyReads, dumpPaths, prepTags, hinj,
          Invariant.queueName, Invariant.fieldName]
    split_ifs <;> omega

/-! ## Claims about `ValidateInitialStateAdmin` and `RunCoreTest` -/

/-- C2: in `ValidateInitialStateAdmin`, a `SetState(ST_ENABLE)` that reports failure, in the
first or in the second iteration, makes the protocol raise the fatal signal at once: it is
the last call made, preceded in its iteration by `SetCSS` only, so no identify command
submission, no queue verification and no `SetState(ST_DISABLE)` happens in that iteration
or afterwards. -/
theorem C2_enable_failure_aborts {σ : Type} (T : Test) (D : Defs) (E : Env σ)
    (acq : SharedACQPtr) (asq : SharedASQPtr) (s : σ) :
    ((E.SetState CtrlrState.ST_ENABLE (enableState D E s)).1 = false →
      (ValidateInitialStateAdmin T D E acq asq s).out = Outcome.exception ∧
      (ValidateInitialStateAdmin T D E acq asq s).tr =
        [Event.SetCSS D.CSS_NVM_CMDSET, Event.SetState CtrlrState.ST_ENABLE false]) ∧
    ((ValidateInitialStateAdmin.body T D E acq asq 0 s).out = Outcome.ret () →
      (E.SetState CtrlrState.ST_ENABLE
        (enableState D E (cycleEnd T D E acq asq s))).1 = false →
      (ValidateInitialStateAdmin T D E acq asq s).out = Outcome.exception ∧
      (ValidateInitialStateAdmin T D E acq asq s).tr =
        passCycleTrace T D acq asq ++
          [Event.SetCSS D.CSS_NVM_CMDSET, Event.SetState CtrlrState.ST_ENABLE false]) ∧
    (∀ pre post, (ValidateInitialStateAdmin T D E acq asq s).tr =
        pre ++ Event.SetState CtrlrState.ST_ENABLE false :: post →
      (ValidateInitialStateAdmin T D E acq asq s).out = Outcome.exception ∧ post = [] ∧
      (pre = [Event.SetCSS D.CSS_NVM_CMDSET] ∨
        pre = passCycleTrace T D acq asq ++ [Event.SetCSS D.CSS_NVM_CMDSET])) := by
  refine ⟨fun hE => ?_, fun h1 hE => ?_, fun pre post h => ?_⟩
  · have hb := body_enable_fail T D E acq asq s hE
    rw [validate_first_fails T D E acq asq s (by rw [hb]), hb]
    exact ⟨rfl, rfl⟩
  · rw [body_eq] at h1
    obtain ⟨hE1, hV1, hD1⟩ := body_ret_inv T D E acq asq s h1
    rw [validate_first_ret T D E acq asq s h1, body_pass T D E acq asq s hE1 hV1 hD1,
      body_enable_fail T D E acq asq _ hE]
    exact ⟨rfl, rfl⟩
  · obtain ⟨ho, hpost, hpre⟩ := validate_failed_setState T D E acq asq s _ pre post h
    refine ⟨ho, hpost, ?_⟩
    rcases hpre rfl with hp | ⟨h1, hp⟩
    · exact Or.inl hp
    · obtain ⟨hE1, hV1, hD1⟩ := body_ret_inv T D E acq asq s h1
      rw [body_pass T D E acq asq s hE1 hV1 hD1] at hp
      exact Or.inr hp

/-- C3: when every `SetState` succeeds and every verification passes,
`ValidateInitialStateAdmin` returns normally after exactly two cycles; its calls are exactly
the cycle SetCSS(NVM command set), SetState(ST_ENABLE), submit and reap one identify
command, verify, SetState(ST_DISABLE), twice in that order with nothing before, between
or after, so the last call is a successful SetState(ST_DISABLE). -/
theorem C3_two_cycles_exact_trace {σ : Type} (T : Test) (D : Defs) (E : Env σ)
    (acq : SharedACQPtr) (asq : SharedASQPtr) (s : σ)
    (hE1 : (E.SetState CtrlrState.ST_ENABLE (enableState D E s)).1 = true)
    (hV1 : (VerifyHeadAndTailDoorBells T E acq asq (verifyState T D E acq asq s)).out =
      Outcome.ret ())
    (hD1 : (E.SetState CtrlrState.ST_DISABLE (verifyState T D E acq asq s)).1 = true)
    (hE2 : (E.SetState CtrlrState.ST_ENABLE
      (enableState D E (cycleEnd T D E acq asq s))).1 = true)
    (hV2 : (VerifyHeadAndTailDoorBells T E acq asq
      (verifyState T D E acq asq (cycleEnd T D E acq asq s))).out = Outcome.ret ())
    (hD2 : (E.SetState CtrlrState.ST_DISABLE
      (verifyState T D E acq asq (cycleEnd T D E acq asq s))).1 = true) :
    (ValidateInitialStateAdmin T D E acq asq s).out = Outcome.ret () ∧
    (ValidateInitialStateAdmin T D E acq asq s).tr =
      passCycleTrace T D acq asq ++ passCycleTrace T D acq asq ∧
    (ValidateInitialStateAdmin T D E acq asq s).st =
      cycleEnd T D E acq asq (cycleEnd T D E acq asq s) ∧
    ((ValidateInitialStateAdmin T D E acq asq s).tr.filter
      (Event.isSetState CtrlrState.ST_ENABLE)).length = 2 ∧
    (ValidateInitialStateAdmin T D E acq asq s).tr.getLast? =
      some (Event.SetState CtrlrState.ST_DISABLE true) := by
  have hb1 := body_pass T D E acq asq s hE1 hV1 hD1
  have hb2 := body_pass T D E acq asq _ hE2 hV2 hD2
  rw [validate_first_ret T D E acq asq s (by rw [hb1]), hb1, hb2]
  refine ⟨rfl, rfl, rfl, ?_, ?_⟩
  · simp [passCycleTrace, submitTrace, passVerifyTrace, List.filter, Event.isSetState]
  · simp [passCycleTrace, submitTrace, passVerifyTrace]

/-- C4: the loop body of `ValidateInitialStateAdmin` does not depend on the iteration index,
so the second cycle checks the same invariant as the first (tail_ptr, head_ptr and CE.SQHD
all equal to 1).  For a device whose transitions succeed and which reports 1/1/1 in the
first cycle, the first cycle passes; if tail_ptr, head_ptr or SQHD is 2 after the second
command, the fatal signal is raised by the verification of the second cycle, with one dump;
and the protocol completes exactly when the second cycle reports 1/1/1 again and its
disable succeeds. -/
theorem C4_second_cycle_same_invariant {σ : Type} (T : Test) (D : Defs) (E : Env σ)
    (acq : SharedACQPtr) (asq : SharedASQPtr) (s : σ)
    (hE1 : (E.SetState CtrlrState.ST_ENABLE (enableState D E s)).1 = true)
    (hQ1 : (E.ASQ_GetQMetrics asq (verifyState T D E acq asq s)).tail_ptr = 1 ∧
      (E.ACQ_GetQMetrics acq (verifyState T D E acq asq s)).head_ptr = 1 ∧
      (E.PeekCE acq (((E.ACQ_GetQMetrics acq (verifyState T D E acq asq s)).head_ptr : Int) - 1)
        (verifyState T D E acq asq s)).n.SQHD = 1)
    (hD1 : (E.SetState CtrlrState.ST_DISABLE (verifyState T D E acq asq s)).1 = true)
    (hE2 : (E.SetState CtrlrState.ST_ENABLE
      (enableState D E (cycleEnd T D E acq asq s))).1 = true) :
    (∀ i j, ValidateInitialStateAdmin.body T D E acq asq i =
      ValidateInitialStateAdmin.body T D E acq asq j) ∧
    (ValidateInitialStateAdmin.body T D E acq asq 0 s).out = Outcome.ret () ∧
    (((E.ASQ_GetQMetrics asq
          (verifyState T D E acq asq (cycleEnd T D E acq asq s))).tail_ptr = 2 ∨
      (E.ACQ_GetQMetrics acq
          (verifyState T D E acq asq (cycleEnd T D E acq asq s))).head_ptr = 2 ∨
      (E.PeekCE acq (((E.ACQ_GetQMetrics acq
          (verifyState T D E acq asq (cycleEnd T D E acq asq s))).head_ptr : Int) - 1)
        (verifyState T D E acq asq (cycleEnd T D E acq asq s))).n.SQHD = 2) →
      (ValidateInitialStateAdmin T D E acq asq s).out = Outcome.exception ∧
      (VerifyHeadAndTailDoorBells T E acq asq
        (verifyState T D E acq asq (cycleEnd T D E acq asq s))).out = Outcome.exception ∧
      (ValidateInitialStateAdmin T D E acq asq s).tr =
        passCycleTrace T D acq asq ++
          ([Event.SetCSS D.CSS_NVM_CMDSET, Event.SetState CtrlrState.ST_ENABLE true] ++
            submitTrace T D acq asq ++
            (VerifyHeadAndTailDoorBells T E acq asq
              (verifyState T D E acq asq (cycleEnd T D E acq asq s))).tr) ∧
      (dumps (ValidateInitialStateAdmin T D E acq asq s).tr).length = 1) ∧
    ((ValidateInitialStateAdmin T D E acq asq s).out = Outcome.ret () ↔
      ((E.ASQ_GetQMetrics asq
          (verifyState T D E acq asq (cycleEnd T D E acq asq s))).tail_ptr = 1 ∧
       (E.ACQ_GetQMetrics acq
          (verifyState T D E acq asq (cycleEnd T D E acq asq s))).head_ptr = 1 ∧
       (E.PeekCE acq (((E.ACQ_GetQMetrics acq
          (verifyState T D E acq asq (cycleEnd T D E acq asq s))).head_ptr : Int) - 1)
        (verifyState T D E acq asq (cycleEnd T D E acq asq s))).n.SQHD = 1 ∧
       (E.SetState CtrlrState.ST_DISABLE
          (verifyState T D E acq asq (cycleEnd T D E acq asq s))).1 = true)) := by
  obtain ⟨hT1, hH1, hS1⟩ := hQ1
  rw [peek_index_zero _ hH1] at hS1
  have hV1 := (verify_out_ret_iff T E acq asq _).mpr ⟨hT1, hH1, hS1⟩
  have hb1 := body_pass T D E acq asq s hE1 hV1 hD1
  have hr1 : (bodyResult T D E acq asq s).out = Outcome.ret () := by rw [hb1]
  refine ⟨fun i j => rfl, by rw [body_eq]; exact hr1, fun hacc => ?_, ?_⟩
  · have hV2 : (VerifyHeadAndTailDoorBells T E acq asq
        (verifyState T D E acq asq (cycleEnd T D E acq asq s))).out = Outcome.exception := by
      rw [out_exception_iff, verify_out_ret_iff]
      rintro ⟨hT2, hH2, hS2⟩
      rw [peek_index_zero _ hH2] at hacc
      omega
    rw [validate_first_ret T D E acq asq s hr1, hb1, body_verify_fail T D E acq asq _ hE2 hV2]
    refine ⟨rfl, hV2, rfl, ?_⟩
    have e1 : List.filter Event.isDump (passCycleTrace T D acq asq) = [] := rfl
    have e2 : List.filter Event.isDump
        ([Event.SetCSS D.CSS_NVM_CMDSET, Event.SetState CtrlrState.ST_ENABLE true] ++
          submitTrace T D acq asq) = [] := rfl
    have e3 := verify_fail_dumps_length T E acq asq _ hV2
    simp only [dumps] at e3 ⊢
    rw [List.filter_append, List.filter_append, e1, e2]
    exact e3
  · rw [validate_first_ret T D E acq asq s hr1]
    constructor
    · intro h
      obtain ⟨_, hV2, hD2⟩ := body_ret_inv T D E acq asq _ h
      obtain ⟨hT2, hH2, hS2⟩ := (verify_out_ret_iff T E acq asq _).mp hV2
      exact ⟨hT2, hH2, by rw [peek_index_zero _ hH2]; exact hS2, hD2⟩
    · rintro ⟨hT2, hH2, hS2, hD2⟩
      rw [peek_index_zero _ hH2] at hS2
      rw [body_pass T D E acq asq _ hE2
        ((verify_out_ret_iff T E acq asq _).mpr ⟨hT2, hH2, hS2⟩) hD2]

/-- C6: in `ValidateInitialStateAdmin` a `SetState(ST_DISABLE)` that reports failure is fatal
and is not retried: if it fails in the first cycle the run ends there with the fatal signal
and none of the calls of a second cycle; wherever it fails it is the last call made; and
each cycle calls `SetState` at most once per target state (at most twice in the whole run). -/
theorem C6_disable_failure_fatal_no_retry {σ : Type} (T : Test) (D : Defs) (E : Env σ)
    (acq : SharedACQPtr) (asq : SharedASQPtr) (s : σ) :
    ((E.SetState CtrlrState.ST_ENABLE (enableState D E s)).1 = true →
      (VerifyHeadAndTailDoorBells T E acq asq (verifyState T D E acq asq s)).out =
        Outcome.ret () →
      (E.SetState CtrlrState.ST_DISABLE (verifyState T D E acq asq s)).1 = false →
      (ValidateInitialStateAdmin T D E acq asq s).out = Outcome.exception ∧
      (ValidateInitialStateAdmin T D E acq asq s).tr =
        [Event.SetCSS D.CSS_NVM_CMDSET, Event.SetState CtrlrState.ST_ENABLE true] ++
          submitTrace T D acq asq ++ passVerifyTrace acq asq ++
          [Event.SetState CtrlrState.ST_DISABLE false]) ∧
    (∀ pre post, (ValidateInitialStateAdmin T D E acq asq s).tr =
        pre ++ Event.SetState CtrlrState.ST_DISABLE false :: post →
      (ValidateInitialStateAdmin T D E acq asq s).out = Outcome.exception ∧ post = []) ∧
    (∀ i s1 st, ((ValidateInitialStateAdmin.body T D E acq asq i s1).tr.filter
      (Event.isSetState st)).length ≤ 1) ∧
    (∀ st, ((ValidateInitialStateAdmin T D E acq asq s).tr.filter
      (Event.isSetState st)).length ≤ 2) := by
  refine ⟨fun hE hV hD => ?_, fun pre post h => ?_, fun i s1 st => ?_, fun st => ?_⟩
  · have hb := body_reach_disable T D E acq asq s hE hV
    rw [hD] at hb
    rw [validate_first_fails T D E acq asq s (by rw [hb]; rfl), hb]
    exact ⟨rfl, rfl⟩
  · obtain ⟨ho, hpost, _⟩ := validate_failed_setState T D E acq asq s _ pre post h
    exact ⟨ho, hpost⟩
  · rw [body_eq]; exact body_setState_once T D E acq asq s1 st
  · rcases out_cases (bodyResult T D E acq asq s).out with h1 | h1
    · rw [validate_first_ret T D E acq asq s h1]
      simp only [List.filter_append, List.length_append]
      have a := body_setState_once T D E acq asq s st
      have b := body_setState_once T D E acq asq (cycleEnd T D E acq asq s) st
      omega
    · rw [validate_first_fails T D E acq asq s h1]
      have a := body_setState_once T D E acq asq s st
      omega

/-- C10: `RunCoreTest` allocates and initialises the ACQ and then the ASQ, both with
depth 5, before anything else; all controller operations and command submissions come
after, from `ValidateInitialStateAdmin`, which makes no further initialisation.  It never
returns false: it returns true exactly when `ValidateInitialStateAdmin` returns, and raises
the fatal signal exactly when `ValidateInitialStateAdmin` does. -/
theorem C10_run_core_test_setup_and_result {σ : Type} (T : Test) (D : Defs) (E : Env σ)
    (s : σ) :
    (RunCoreTest T D E s).tr =
      [Event.AllocObj ObjType.OBJ_ACQ D.ACQ_GROUP_ID, Event.ACQ_Init (coreAcq D E s) 5,
       Event.AllocObj ObjType.OBJ_ASQ D.ASQ_GROUP_ID, Event.ASQ_Init (coreAsq D E s) 5] ++
      (ValidateInitialStateAdmin T D E (coreAcq D E s) (coreAsq D E s)
        (coreStateAsq D E s)).tr ∧
    (∀ e ∈ (ValidateInitialStateAdmin T D E (coreAcq D E s) (coreAsq D E s)
        (coreStateAsq D E s)).tr, e.isSetup = false) ∧
    (∀ e ∈ [Event.AllocObj ObjType.OBJ_ACQ D.ACQ_GROUP_ID, Event.ACQ_Init (coreAcq D E s) 5,
       Event.AllocObj ObjType.OBJ_ASQ D.ASQ_GROUP_ID, Event.ASQ_Init (coreAsq D E s) 5],
      e.isCtrlrOrCmd = false) ∧
    (RunCoreTest T D E s).out ≠ Outcome.ret false ∧
    ((RunCoreTest T D E s).out = Outcome.ret true ↔
      (ValidateInitialStateAdmin T D E (coreAcq D E s) (coreAsq D E s)
        (coreStateAsq D E s)).out = Outcome.ret ()) ∧
    ((RunCoreTest T D E s).out = Outcome.exception ↔
      (ValidateInitialStateAdmin T D E (coreAcq D E s) (coreAsq D E s)
        (coreStateAsq D E s)).out = Outcome.exception) := by
  have hrun : RunCoreTest T D E s =
      ⟨match (ValidateInitialStateAdmin T D E (coreAcq D E s) (coreAsq D E s)
          (coreStateAsq D E s)).out with
        | Outcome.ret _ => Outcome.ret true
        | Outcome.exception => Outcome.exception,
       (ValidateInitialStateAdmin T D E (coreAcq D E s) (coreAsq D E s)
          (coreStateAsq D E s)).st,
       [Event.AllocObj ObjType.OBJ_ACQ D.ACQ_GROUP_ID, Event.ACQ_Init (coreAcq D E s) 5,
        Event.AllocObj ObjType.OBJ_ASQ D.ASQ_GROUP_ID, Event.ASQ_Init (coreAsq D E s) 5] ++
        (ValidateInitialStateAdmin T D E (coreAcq D E s) (coreAsq D E s)
          (coreStateAsq D E s)).tr⟩ := by
    rcases hv : ValidateInitialStateAdmin T D E (coreAcq D E s) (coreAsq D E s)
      (coreStateAsq D E s) with ⟨o, st, tr⟩
    simp only [coreAcq, coreAsq, coreStateAsq, coreStateAcq] at hv
    cases o <;>
      simp [RunCoreTest, bind, Prog.bind, pure, Prog.pure, AllocObj, ACQ_Init, ASQ_Init,
        callUnit, coreAcq, coreAsq, coreStateAsq, coreStateAcq, hv]
  rw [hrun]
  refine ⟨rfl, validate_tr_no_setup T D E _ _ _, ?_, ?_, ?_, ?_⟩
  · intro e he
    simp at he
    rcases he with h | h | h | h <;> rw [h] <;> rfl
  · cases (ValidateInitialStateAdmin T D E (coreAcq D E s) (coreAsq D E s)
      (coreStateAsq D E s)).out <;> simp
  · cases (ValidateInitialStateAdmin T D E (coreAcq D E s) (coreAsq D E s)
      (coreStateAsq D E s)).out <;> simp
  · cases (ValidateInitialStateAdmin T D E (coreAcq D E s) (coreAsq D E s)
      (coreStateAsq D E s)).out <;> simp

/-! ## The bit scan -/

/-- A scan that finds nothing saw equal bits at every scanned position. -/
theorem scanBits_none (val expectedVal : Nat) :
    ∀ n i, scanBits val expectedVal i n = none →
      ∀ j, i ≤ j → j < i + n → val.testBit j = expectedVal.testBit j := by
  intro n
  induction n with
  | zero => intro i _ j h1 h2; omega
  | succ n ih =>
    intro i h j h1 h2
    unfold scanBits at h
    by_cases hb : val.testBit i = expectedVal.testBit i
    · rw [if_neg (not_not.mpr hb)] at h
      rcases Nat.eq_or_lt_of_le h1 with hij | hij
      · rw [← hij]; exact hb
      · exact ih (i + 1) h j hij (by omega)
    · rw [if_pos hb] at h
      exact absurd h (by simp)

/-- A scan that finds a position found the first scanned position where the bits differ. -/
theorem scanBits_some (val expectedVal : Nat) :
    ∀ n i k, scanBits val expectedVal i n = some k →
      i ≤ k ∧ k < i + n ∧ val.testBit k ≠ expectedVal.testBit k ∧
      ∀ j, i ≤ j → j < k → val.testBit j = expectedVal.testBit j := by
  intro n
  induction n with
  | zero => intro i k h; simp [scanBits] at h
  | succ n ih =>
    intro i k h
    unfold scanBits at h
    by_cases hb : val.testBit i = expectedVal.testBit i
    · rw [if_neg (not_not.mpr hb)] at h
      obtain ⟨h1, h2, h3, h4⟩ := ih (i + 1) k h
      refine ⟨by omega, by omega, h3, fun j hj1 hj2 => ?_⟩
      rcases Nat.eq_or_lt_of_le hj1 with hij | hij
      · rw [← hij]; exact hb
      · exact h4 j hij hj2
    · rw [if_pos hb] at h
      simp only [Option.some.injEq] at h
      subst h
      exact ⟨le_refl _, by omega, hb, fun j hj1 hj2 => by omega⟩

/-- Two different 64-bit values differ at some bit position below 64. -/
theorem exists_bit_ne (val expectedVal : Nat) (hv : val < 2 ^ 64) (he : expectedVal < 2 ^ 64)
    (hne : val ≠ expectedVal) : ∃ j, j < 64 ∧ val.testBit j ≠ expectedVal.testBit j := by
  by_contra hcon
  push_neg at hcon
  apply hne
  apply Nat.eq_of_testBit_eq
  intro j
  by_cases hj : j < 64
  · exact hcon j hj
  · have hp : 2 ^ 64 ≤ 2 ^ j := Nat.pow_le_pow_right (by decide) (by omega)
    rw [Nat.testBit_lt_two_pow (lt_of_lt_of_le hv hp),
      Nat.testBit_lt_two_pow (lt_of_lt_of_le he hp)]

/-- C7: on 64-bit unsigned values `ReportOffendingBitPos(val, expectedVal)` returns `INT_MAX`
when the values are equal; returns `k` when they differ only at bit `k`; and whenever they
differ returns the least significant bit position at which they differ. -/
theorem C7_report_offending_bit_pos (val expectedVal : Nat) (hv : val < 2 ^ 64)
    (he : expectedVal < 2 ^ 64) :
    (val = expectedVal → ReportOffendingBitPos val expectedVal = INT_MAX) ∧
    (∀ k : Nat, k < 64 → (∀ j, val.testBit j ≠ expectedVal.testBit j ↔ j = k) →
      ReportOffendingBitPos val expectedVal = (k : Int)) ∧
    (val ≠ expectedVal → ∃ k : Nat, k < 64 ∧ ReportOffendingBitPos val expectedVal = (k : Int) ∧
      val.testBit k ≠ expectedVal.testBit k ∧
      ∀ j, j < k → val.testBit j = expectedVal.testBit j) := by
  have general : val ≠ expectedVal → ∃ k : Nat, k < 64 ∧
      ReportOffendingBitPos val expectedVal = (k : Int) ∧
      val.testBit k ≠ expectedVal.testBit k ∧
      ∀ j, j < k → val.testBit j = expectedVal.testBit j := by
    intro hne
    obtain ⟨j, hj, hjne⟩ := exists_bit_ne val expectedVal hv he hne
    cases hs : scanBits val expectedVal 0 64 with
    | none => exact absurd (scanBits_none val expectedVal 64 0 hs j (Nat.zero_le _) (by omega)) hjne
    | some k =>
      obtain ⟨_, h2, h3, h4⟩ := scanBits_some val expectedVal 64 0 k hs
      exact ⟨k, by omega, by simp [ReportOffendingBitPos, hs], h3,
        fun j hjk => h4 j (Nat.zero_le _) hjk⟩
  refine ⟨fun heq => ?_, fun k _ honly => ?_, general⟩
  · subst heq
    cases hs : scanBits val val 0 64 with
    | none => simp [ReportOffendingBitPos, hs]
    | some k => exact absurd rfl (scanBits_some val val 64 0 k hs).2.2.1
  · have hne : val ≠ expectedVal := by
      intro heq
      have := (honly k).mpr rfl
      rw [heq] at this
      exact this rfl
    obtain ⟨k2, _, hr, hd, _⟩ := general hne
    rw [hr, (honly k2).mp hd]

/-! ## The properties at concrete inputs, on the simulated controller -/

/-- Witness for C2: a controller whose first, respectively second, enable request fails. -/
theorem C2_witness :
    ((ValidateInitialStateAdmin simTest simDefs (simEnv cfgEnableFailsFirst) simAcq simAsq
        simInit).out = Outcome.exception ∧
      (ValidateInitialStateAdmin simTest simDefs (simEnv cfgEnableFailsFirst) simAcq simAsq
        simInit).tr =
        [Event.SetCSS simDefs.CSS_NVM_CMDSET, Event.SetState CtrlrState.ST_ENABLE false]) ∧
    ((ValidateInitialStateAdmin simTest simDefs (simEnv cfgEnableFailsSecond) simAcq simAsq
        simInit).out = Outcome.exception ∧
      (ValidateInitialStateAdmin simTest simDefs (simEnv cfgEnableFailsSecond) simAcq simAsq
        simInit).tr =
        passCycleTrace simTest simDefs simAcq simAsq ++
          [Event.SetCSS simDefs.CSS_NVM_CMDSET, Event.SetState CtrlrState.ST_ENABLE false]) :=
  ⟨(C2_enable_failure_aborts simTest simDefs (simEnv cfgEnableFailsFirst) simAcq simAsq
      simInit).1 (by decide),
   (C2_enable_failure_aborts simTest simDefs (simEnv cfgEnableFailsSecond) simAcq simAsq
      simInit).2.1 (by decide) (by decide)⟩

/-- Witness for C3: a controller that resets its queues on disable passes both cycles. -/
theorem C3_witness :
    (ValidateInitialStateAdmin simTest simDefs (simEnv cfgReset) simAcq simAsq simInit).out =
      Outcome.ret () ∧
    (ValidateInitialStateAdmin simTest simDefs (simEnv cfgReset) simAcq simAsq simInit).tr =
      passCycleTrace simTest simDefs simAcq simAsq ++
        passCycleTrace simTest simDefs simAcq simAsq :=
  ⟨(C3_two_cycles_exact_trace simTest simDefs (simEnv cfgReset) simAcq simAsq simInit
      (by decide) (by decide) (by decide) (by decide) (by decide) (by decide)).1,
   (C3_two_cycles_exact_trace simTest simDefs (simEnv cfgReset) simAcq simAsq simInit
      (by decide) (by decide) (by decide) (by decide) (by decide) (by decide)).2.1⟩

/-- Witness for C4: a controller whose queue state accumulates fails in the second cycle,
a controller that resets it completes. -/
theorem C4_witness :
    (ValidateInitialStateAdmin simTest simDefs (simEnv cfgAccumulate) simAcq simAsq
      simInit).out = Outcome.exception ∧
    (dumps (ValidateInitialStateAdmin simTest simDefs (simEnv cfgAccumulate) simAcq simAsq
      simInit).tr).length = 1 ∧
    (ValidateInitialStateAdmin simTest simDefs (simEnv cfgReset) simAcq simAsq simInit).out =
      Outcome.ret () :=
  ⟨((C4_second_cycle_same_invariant simTest simDefs (simEnv cfgAccumulate) simAcq simAsq
      simInit (by decide) (by decide) (by decide) (by decide)).2.2.1 (Or.inl (by decide))).1,
   ((C4_second_cycle_same_invariant simTest simDefs (simEnv cfgAccumulate) simAcq simAsq
      simInit (by decide) (by decide) (by decide) (by decide)).2.2.1
        (Or.inl (by decide))).2.2.2,
   (C4_second_cycle_same_invariant simTest simDefs (simEnv cfgReset) simAcq simAsq
      simInit (by decide) (by decide) (by decide) (by decide)).2.2.2.mpr (by decide)⟩

/-- Witness for C6: a controller whose first disable request fails. -/
theorem C6_witness :
    (ValidateInitialStateAdmin simTest simDefs (simEnv cfgDisableFailsFirst) simAcq simAsq
      simInit).out = Outcome.exception ∧
    (ValidateInitialStateAdmin simTest simDefs (simEnv cfgDisableFailsFirst) simAcq simAsq
      simInit).tr =
      [Event.SetCSS simDefs.CSS_NVM_CMDSET, Event.SetState CtrlrState.ST_ENABLE true] ++
        submitTrace simTest simDefs simAcq simAsq ++ passVerifyTrace simAcq simAsq ++
        [Event.SetState CtrlrState.ST_DISABLE false] :=
  (C6_disable_failure_fatal_no_retry simTest simDefs (simEnv cfgDisableFailsFirst) simAcq
    simAsq simInit).1 (by decide) (by decide) (by decide)

/-- Witness for C7: equal values, and the values 10 and 8, which differ only at bit 1. -/
theorem C7_witness :
    ReportOffendingBitPos 7 7 = INT_MAX ∧ ReportOffendingBitPos 10 8 = 1 :=
  ⟨(C7_report_offending_bit_pos 7 7 (by norm_num) (by norm_num)).1 rfl,
   (C7_report_offending_bit_pos 10 8 (by norm_num) (by norm_num)).2.1 1 (by norm_num)
     (by
       intro j
       constructor
       · intro h
         by_contra hj
         apply h
         rcases j with _ | _ | _ | _ | j
         · rfl
         · exact absurd rfl hj
         · rfl
         · rfl
         · have hp : 2 ^ 4 ≤ 2 ^ (j + 1 + 1 + 1 + 1) :=
             Nat.pow_le_pow_right (by decide) (by omega)
           have h10 : (10 : Nat) < 2 ^ (j + 1 + 1 + 1 + 1) :=
             lt_of_lt_of_le (show (10 : Nat) < 2 ^ 4 by norm_num) hp
           have h8 : (8 : Nat) < 2 ^ (j + 1 + 1 + 1 + 1) :=
             lt_of_lt_of_le (show (8 : Nat) < 2 ^ 4 by norm_num) hp
           rw [Nat.testBit_lt_two_pow h10, Nat.testBit_lt_two_pow h8]
       · intro hj
         subst hj
         decide)⟩

/-- Witness for C8: after one command the entry at index 0 is peeked once; on a fresh
queue (head_ptr = 0) nothing is peeked. -/
theorem C8_witness :
    (VerifyHeadAndTailDoorBells simTest (simEnv cfgReset) simAcq simAsq
      (simSend simInit)).tr.filter Event.isPeekCE = [Event.PeekCE simAcq 0] ∧
    (VerifyHeadAndTailDoorBells simTest (simEnv cfgReset) simAcq simAsq
      simInit).tr.filter Event.isPeekCE = [] :=
  ⟨(C8_peek_only_at_index_zero simTest (simEnv cfgReset) simAcq simAsq
      (simSend simInit)).2.2.2 ⟨by decide, by decide⟩,
   (C8_peek_only_at_index_zero simTest (simEnv cfgReset) simAcq simAsq
      simInit).2.2.1 (by decide)⟩

/-- Witness for C9: with tail_ptr = 2 and head_ptr = 2 the only dump is the ASQ dump tagged
"tail_ptr". -/
theorem C9_witness :
    (VerifyHeadAndTailDoorBells simTest (simEnv cfgAccumulate) simAcq simAsq
      (simSend (simSend simInit))).out = Outcome.exception ∧
    dumps (VerifyHeadAndTailDoorBells simTest (simEnv cfgAccumulate) simAcq simAsq
      (simSend (simSend simInit))).tr =
      [Event.ASQ_Dump simAsq
        ((simEnv cfgAccumulate).PrepLogFile simTest.mGrpName simTest.mTestName "asq" "tail_ptr")
        "SQ Metrics Tail Pointer Inconsistent"] ∧
    prepTags (VerifyHeadAndTailDoorBells simTest (simEnv cfgAccumulate) simAcq simAsq
      (simSend (simSend simInit))).tr = ["tail_ptr"] :=
  (C9_single_dump_at_first_violation simTest (simEnv cfgAccumulate) simAcq simAsq
    (simSend (simSend simInit))).1 (by decide)

end Tnvme
